import Mathlib

/-!
Verification development for the FreshFlow AI agricultural supply-chain demo
(`freshflowai`): a set of independently deployed HTTP Cloud Functions
(agrioptimize, logifresh, marketflow, plus standalone lookup functions)
that validate JSON requests, run parameterized queries / row inserts against
a BigQuery warehouse, optionally call Google Maps web APIs, and return
`(JSON body, status code)` pairs.

The embedding is shallow:
* JSON values are modelled by `JVal`; request bodies are association lists.
* The BigQuery client is modelled by explicit parameters: each fetch outcome
  is an `Except String (List JVal)` (error string or rows), each insert
  outcome an `Option String` (`none` = success, `some e` = error string),
  mirroring the `(success, result)` pairs of the Python helpers
  `fetch_rows` / `insert_rows`.  Where a claim depends on the semantics of
  the SQL itself (the pickup-availability aggregation) the table is modelled
  as a list of rows and the aggregation as a Lean function over it.
* Warehouse writes are recorded in an explicit effect trace (`DbWrite`).
* Python floats are modelled as exact rationals (the handlers only compare
  and add them), dates as integer day numbers, datetimes as integer
  minutes/seconds; standard-library parsing (`datetime.strptime`,
  `datetime.fromisoformat`) is passed in as an explicit parameter.
* `random.randint(a, b)` is modelled by `randint a b x = a + x % (b+1-a)`
  over an explicit stream `rng : Nat → Nat`; `random.shuffle` by a
  Fisher-Yates-style permutation driven by the same stream.
-/

namespace FreshFlow

/-- JSON-like values as produced by `request.get_json` and returned in
response bodies.  Python floats are modelled as exact rationals. -/
inductive JVal where
  | str (s : String)
  | int (n : Int)
  | rat (q : ℚ)
  | bool (b : Bool)
  | null
  | arr (xs : List JVal)
  | obj (fs : List (String × JVal))

/-- A parsed JSON object body (Python dict) as an association list. -/
abbrev Data := List (String × JVal)

/-- Python truthiness of a JSON value (`if x:`). -/
def pytruthy : JVal → Bool
  | .str s => !(s == "")
  | .int n => !(n == 0)
  | .rat q => decide (q ≠ 0)
  | .bool b => b
  | .null => false
  | .arr xs => !xs.isEmpty
  | .obj fs => !fs.isEmpty

/-- Field access on a JSON object (`d[k]` / `d.get(k)`). -/
def getField : JVal → String → Option JVal
  | .obj fs, k => fs.lookup k
  | _, _ => none

/-- An HTTP handler result: status code plus JSON body. -/
structure HResp where
  code : Nat
  body : JVal

/-- The `status` field of a response body. -/
def HResp.statusOf (r : HResp) : Option JVal := getField r.body "status"

/-- The `message` field of a response body. -/
def HResp.msgOf (r : HResp) : Option JVal := getField r.body "message"

/-- The `details` field of a response body. -/
def HResp.detailsOf (r : HResp) : Option JVal := getField r.body "details"

/-- The standard error body `{"status": "error", "message": msg}`. -/
def errBody (msg : String) : JVal :=
  .obj [("status", .str "error"), ("message", .str msg)]

/-- A recorded warehouse write effect.  The handlers only ever call
`insert_rows_json`; `update` and `delete` exist in the effect language so
that "performs no updates or deletes" is a contentful statement. -/
inductive DbWrite where
  | insert (table : String) (rows : List JVal)
  | update (table : String)
  | delete (table : String)

/-- Whether a recorded write is an insert. -/
def DbWrite.isInsert : DbWrite → Bool
  | .insert _ _ => true
  | _ => false

/-- The table an effect touches. -/
def DbWrite.tableOf : DbWrite → String
  | .insert t _ => t
  | .update t => t
  | .delete t => t

/-- Number of rows carried by an effect. -/
def DbWrite.numRows : DbWrite → Nat
  | .insert _ rows => rows.length
  | _ => 0

/-- `missing = [field for field in required_fields if not data or field not in data]`. -/
def missingFields (req : List String) (data : Data) : List String :=
  req.filter (fun f => data.isEmpty || (data.lookup f).isNone)

/-- `f"Missing required fields in body: {', '.join(missing)}"`. -/
def missingMsg (missing : List String) : String :=
  "Missing required fields in body: " ++ String.intercalate ", " missing

/-- The shared required-field guard
`if not data or not all(field in data for field in required_fields)`:
returns the 400 message when a required field is missing. -/
def checkRequired (req : List String) (data : Data) : Option String :=
  let m := missingFields req data
  if m.isEmpty then none else some (missingMsg m)

/-- Executable floor of a rational (`Int.floor`'s instance for `ℚ` does
not reduce in the kernel). -/
def ratFloor (q : ℚ) : Int := Int.fdiv q.num q.den

/-- Truncation toward zero, as Python `int(float)`. -/
def ratTrunc (q : ℚ) : Int :=
  if 0 ≤ q then ratFloor q else -ratFloor (-q)

/-- Python `int(x)` on a JSON value: `None` on `ValueError`/`TypeError`. -/
def toIntOpt : JVal → Option Int
  | .int n => some n
  | .bool b => some (if b then 1 else 0)
  | .rat q => some (ratTrunc q)
  | .str s => s.toInt?
  | _ => none

/-- Decimal fraction part of a numeric string: `"25"` ↦ `25/100`. -/
def fracOfDigits (b : String) : Option ℚ :=
  if b == "" then some 0
  else (b.toNat?).map (fun y => (y : ℚ) / (10 : ℚ) ^ b.length)

/-- Unsigned decimal literal (`"3"`, `"3.5"`, `".5"`, `"3."`). -/
def parseUnsignedDec (s : String) : Option ℚ :=
  match s.splitOn "." with
  | [a] => (a.toNat?).map (fun x => (x : ℚ))
  | [a, b] =>
    if a == "" && b == "" then none
    else
      match (if a == "" then some 0 else a.toNat?), fracOfDigits b with
      | some x, some y => some ((x : ℚ) + y)
      | _, _ => none
  | _ => none

/-- Signed decimal literal, approximating Python `float(str)`. -/
def parseDecimal (s : String) : Option ℚ :=
  if s.startsWith "-" then (parseUnsignedDec (s.drop 1)).map Neg.neg
  else if s.startsWith "+" then parseUnsignedDec (s.drop 1)
  else parseUnsignedDec s

/-- Python `float(x)` on a JSON value: `None` on `ValueError`/`TypeError`. -/
def toRatOpt : JVal → Option ℚ
  | .rat q => some q
  | .int n => some (n : ℚ)
  | .bool b => some (if b then 1 else 0)
  | .str s => parseDecimal s
  | _ => none

/-- Rendering of a JSON value inside a Python f-string (only the scalar
cases are exercised by the handlers on the paths the claims touch). -/
def pyStr : JVal → String
  | .str s => s
  | .int n => toString n
  | .bool b => if b then "True" else "False"
  | .null => "None"
  | .rat q => toString q
  | .arr _ => "[...]"
  | .obj _ => "{...}"

/-- Python `str.lower()` (ASCII), written over the character list so that
it evaluates; the core `String.toLower` is opaque to the kernel. -/
def pyLower (s : String) : String := ⟨s.data.map Char.toLower⟩

/-- `random.randint(a, b)` driven by one stream value: always in `[a, b]`
when `a ≤ b`. -/
def randint (a b x : Nat) : Nat := a + x % (b + 1 - a)

/-- An incoming HTTP request as seen by the Cloud Function entry points:
method, path, `Content-Type` header, and the result of
`request.get_json(silent=True)` (`none` = body not parseable as JSON). -/
structure HttpRequest where
  method : String
  path : String
  contentType : Option String
  jsonBody : Option Data

/-- Fetch outcome of the Python helper `fetch_rows`:
`.ok rows` for `(True, rows)`, `.error e` for `(False, str(e))`. -/
abbrev Fetch := Except String (List JVal)

/-- Truthiness of the Python variable holding a fetch outcome: a row list
(truthy iff non-empty) on success, the error string (truthy iff non-empty)
on failure. -/
def fetchTruthy : Fetch → Bool
  | .ok l => !l.isEmpty
  | .error s => !(s == "")

/-- Whether the fetch succeeded (`success` flag of `fetch_rows`). -/
def fetchOk : Fetch → Bool
  | .ok _ => true
  | .error _ => false

/-- The JSON value placed in a response body for a fetch-outcome variable:
the row list on success, the raw error string on failure. -/
def fetchJ : Fetch → JVal
  | .ok l => .arr l
  | .error s => .str s

/-- The error string of a failed fetch (`""` if it succeeded). -/
def fetchErr : Fetch → String
  | .ok _ => ""
  | .error s => s

end FreshFlow

namespace FreshFlow.Agrioptimize

/-! ## `agrioptimize/main.py`
Tables are identified by their bare names; the source prefixes them with
`f"{PROJECT_ID}.{DATASET_ID}."` from environment variables. -/

def HARVEST_RECORDS_TABLE : String := "harvest_records"

def FARM_QC_ISSUES_TABLE : String := "farm_qc_issues"

/-- Optional integer field conversion in `handle_log_harvest` /
`handle_report_farm_qc_issue`: absent or `None` values pass through,
present values must convert with `int(...)`; `none` = `ValueError`. -/
def convOptInt (data : Data) (k : String) : Option (Option Int) :=
  match data.lookup k with
  | none => some none
  | some JVal.null => some none
  | some v => (toIntOpt v).map some

/-- Optional float field conversion (`quality_score`). -/
def convOptRat (data : Data) (k : String) : Option (Option ℚ) :=
  match data.lookup k with
  | none => some none
  | some JVal.null => some none
  | some v => (toRatOpt v).map some

/-- Optional `YYYY-MM-DD` field validation (`planting_date`):
absent/`None` ok, a string must parse, anything else is a `TypeError`. -/
def convOptDate (parseDate : String → Option Int) (data : Data) (k : String) :
    Option (Option String) :=
  match data.lookup k with
  | none => some none
  | some JVal.null => some none
  | some (JVal.str s) => (parseDate s).map (fun _ => some s)
  | some _ => none

/-- `handle_log_harvest` (agrioptimize `main.py`).
`parseDate` stands for `datetime.strptime(_, '%Y-%m-%d')` returning the
day number; `uuid` for `str(uuid.uuid4())`; `insertRes` for the outcome of
`insert_rows` (`none` = success). Returns the response and the warehouse
write trace. -/
def handle_log_harvest (parseDate : String → Option Int) (uuid : String)
    (insertRes : Option String) (data : Data) : HResp × List DbWrite :=
  match checkRequired ["farm_id", "product_id", "harvested_quantity_kg", "harvest_date"] data with
  | some msg => (⟨400, errBody msg⟩, [])
  | none =>
    match data.lookup "harvest_date" with
    | some (JVal.str hd) =>
      match parseDate hd with
      | none => (⟨400, errBody "Invalid harvest_date format. Expected YYYY-MM-DD."⟩, [])
      | some _ =>
        match toIntOpt ((data.lookup "harvested_quantity_kg").getD JVal.null) with
        | none => (⟨400, errBody "Invalid format for harvested_quantity_kg. Expected integer."⟩, [])
        | some qty =>
          match convOptInt data "estimated_yield_kg" with
          | none => (⟨400, errBody "Invalid format for estimated_yield_kg. Expected integer."⟩, [])
          | some ey =>
            match convOptRat data "quality_score" with
            | none => (⟨400, errBody "Invalid format for quality_score. Expected number."⟩, [])
            | some qs =>
              match convOptDate parseDate data "planting_date" with
              | none => (⟨400, errBody "Invalid planting_date format. Expected YYYY-MM-DD."⟩, [])
              | some pd =>
                let row : JVal := .obj
                  [("harvest_id", .str uuid),
                   ("farm_id", (data.lookup "farm_id").getD .null),
                   ("product_id", (data.lookup "product_id").getD .null),
                   ("product_name", (data.lookup "product_name").getD .null),
                   ("category", (data.lookup "category").getD .null),
                   ("harvest_date", .str hd),
                   ("harvested_quantity_kg", .int qty),
                   ("estimated_yield_kg", (ey.map JVal.int).getD .null),
                   ("quality_score", (qs.map JVal.rat).getD .null),
                   ("quality_notes", (data.lookup "quality_notes").getD (.str "")),
                   ("photos_gcs_path", (data.lookup "photos_gcs_path").getD .null),
                   ("planting_date", (pd.map JVal.str).getD .null),
                   ("field_id", (data.lookup "field_id").getD .null)]
                match insertRes with
                | none =>
                  (⟨200, .obj [("status", .str "success"), ("harvest_id", .str uuid),
                     ("message", .str "Harvest record logged successfully.")]⟩,
                   [.insert HARVEST_RECORDS_TABLE [row]])
                | some e =>
                  (⟨500, .obj [("status", .str "error"),
                     ("message", .str "Failed to log harvest record."),
                     ("details", .str e)]⟩,
                   [.insert HARVEST_RECORDS_TABLE [row]])
    | _ => (⟨400, errBody "Invalid harvest_date format. Expected YYYY-MM-DD."⟩, [])

/-- `handle_report_farm_qc_issue` (agrioptimize `main.py`).
`todayIso` stands for `date.today().isoformat()`. -/
def handle_report_farm_qc_issue (parseDate : String → Option Int) (uuid : String)
    (todayIso : String) (insertRes : Option String) (data : Data) :
    HResp × List DbWrite :=
  match checkRequired ["farm_id", "issue_type"] data with
  | some msg => (⟨400, errBody msg⟩, [])
  | none =>
    let issueDateStr : Option String :=
      match data.lookup "issue_date" with
      | none => some todayIso
      | some (JVal.str s) => some s
      | some _ => none
    match issueDateStr with
    | none => (⟨400, errBody "Invalid issue_date format. Expected YYYY-MM-DD."⟩, [])
    | some ids =>
      match parseDate ids with
      | none => (⟨400, errBody "Invalid issue_date format. Expected YYYY-MM-DD."⟩, [])
      | some _ =>
        match convOptInt data "affected_quantity_kg" with
        | none => (⟨400, errBody "Invalid format for affected_quantity_kg. Expected integer."⟩, [])
        | some aq =>
          let row : JVal := .obj
            [("issue_id", .str uuid),
             ("farm_id", (data.lookup "farm_id").getD .null),
             ("product_id", (data.lookup "product_id").getD .null),
             ("issue_date", .str ids),
             ("issue_type", (data.lookup "issue_type").getD .null),
             ("affected_quantity_kg", (aq.map JVal.int).getD .null),
             ("severity", (data.lookup "severity").getD (.str "Medium")),
             ("reported_by", (data.lookup "reported_by").getD (.str "AI Agent")),
             ("notes", (data.lookup "notes").getD (.str "")),
             ("photos_gcs_path", (data.lookup "photos_gcs_path").getD .null)]
          match insertRes with
          | none =>
            (⟨200, .obj [("status", .str "success"), ("issue_id", .str uuid),
               ("message", .str "Farm quality issue reported successfully.")]⟩,
             [.insert FARM_QC_ISSUES_TABLE [row]])
          | some e =>
            (⟨500, .obj [("status", .str "error"),
               ("message", .str "Failed to report quality issue."),
               ("details", .str e)]⟩,
             [.insert FARM_QC_ISSUES_TABLE [row]])

/-- `handle_get_harvest_advice` (agrioptimize `main.py`).  The four
warehouse retrievals (recent harvests, recent QC issues, upcoming
schedules, farm profile) are passed as fetch outcomes; the dynamic WHERE
clauses only shape the queries behind those outcomes.  `fFetch` is
consulted only when a truthy `farm_id` was supplied. -/
def handle_get_harvest_advice (hFetch qFetch sFetch fFetch : Fetch)
    (data : Data) : HResp :=
  let farmGiven := pytruthy ((data.lookup "farm_id").getD .null)
  let fOk : Bool := if farmGiven then fetchOk fFetch else true
  let farmDetails : JVal :=
    if farmGiven then
      match fFetch with
      | .ok (x :: _) => x
      | _ => .obj []
    else .obj []
  let overall := fetchOk hFetch && fetchOk qFetch && fetchOk sFetch && fOk
  if overall then
    ⟨200, .obj [("status", .str "success"),
      ("farm_details", farmDetails),
      ("recent_harvests", fetchJ hFetch),
      ("recent_qc_issues", fetchJ qFetch),
      ("upcoming_schedules", fetchJ sFetch)]⟩
  else
    let msgs : List String :=
      (if fetchOk hFetch then [] else ["Harvest query failed: " ++ fetchErr hFetch]) ++
      (if fetchOk qFetch then [] else ["QC query failed: " ++ fetchErr qFetch]) ++
      (if fetchOk sFetch then [] else ["Schedule query failed: " ++ fetchErr sFetch]) ++
      (if !fOk && farmGiven then ["Farm query failed: " ++ fetchErr fFetch] else [])
    -- `status_code = 200 if (harvests or qc_issues or schedules or farm_details) else 500`:
    -- a failed query's variable holds its (usually non-empty, hence truthy) error string.
    let code : Nat :=
      if fetchTruthy hFetch || fetchTruthy qFetch || fetchTruthy sFetch
          || pytruthy farmDetails then 200 else 500
    ⟨code, .obj [("status", .str (if code == 200 then "warning" else "error")),
      ("message", .str (if code == 200 then "Data retrieval issues encountered."
        else "Failed to retrieve data for advice.")),
      ("details", .str (String.intercalate " | " msgs)),
      ("farm_details", farmDetails),
      ("recent_harvests", fetchJ hFetch),
      ("recent_qc_issues", fetchJ qFetch),
      ("upcoming_schedules", fetchJ sFetch)]⟩

/-- A row of the `harvest_records` table as used by the pickup
availability query: dates are day numbers. -/
structure HarvestRow where
  farm_id : String
  product_id : String
  harvest_date : Int
  harvested_quantity_kg : Int

/-- The availability aggregation of `handle_schedule_farm_pickup`:
`SELECT SUM(harvested_quantity_kg) FROM harvest_records WHERE
farm_id = @farm_id AND product_id = @product_id AND
harvest_date >= DATE_SUB(@requested_date, INTERVAL 7 DAY)`.
SQL `SUM` over no rows is `NULL` (`none`).  Note: the WHERE clause has no
upper bound on `harvest_date`. -/
def sqlAvailSum (db : List HarvestRow) (farm prod : String) (reqDay : Int) :
    Option Int :=
  let rows := db.filter (fun r =>
    r.farm_id == farm && r.product_id == prod && decide (reqDay - 7 ≤ r.harvest_date))
  if rows.isEmpty then none
  else some ((rows.map (fun r => r.harvested_quantity_kg)).sum)

/-- `handle_schedule_farm_pickup` (agrioptimize `main.py`).
`db` is the `harvest_records` table, `availOk` whether the availability
query succeeds (`availErr` its error string otherwise), `rng` the
`random.randint` stream and `randBool` the `random.random() < 0.9`
outcome.  Datetimes are minutes (`requested_date 00:00` = `reqDay*1440`). -/
def handle_schedule_farm_pickup (parseDate : String → Option Int)
    (db : List HarvestRow) (availOk : Bool) (availErr : String)
    (rng : Nat → Nat) (randBool : Bool) (data : Data) : HResp :=
  match checkRequired ["farm_id", "product_id", "quantity_kg", "requested_date"] data with
  | some msg => ⟨400, errBody msg⟩
  | none =>
    match data.lookup "requested_date" with
    | some (JVal.str rd) =>
      match parseDate rd with
      | none => ⟨400, errBody "Invalid requested_date format. Expected YYYY-MM-DD."⟩
      | some reqDay =>
        match toIntOpt ((data.lookup "quantity_kg").getD JVal.null) with
        | none => ⟨400, errBody "Invalid format for quantity_kg. Expected integer."⟩
        | some qty =>
          let farm := pyStr ((data.lookup "farm_id").getD .null)
          let prod := pyStr ((data.lookup "product_id").getD .null)
          if availOk then
            let availableKg := (sqlAvailSum db farm prod reqDay).getD 0
            if qty ≤ availableKg then
              let pickup : Int := reqDay * 1440
                + (randint 0 2 (rng 0) : Int) * 1440
                + (randint 8 16 (rng 1) : Int) * 60
                + (randint 0 59 (rng 2) : Int)
              ⟨200, .obj [("status", .str "success"),
                ("details", .obj
                  [("request_status", .str "Acknowledged"),
                   ("estimated_pickup_datetime", .int pickup),
                   ("confirmed_quantity_kg", .int qty),
                   ("message", .str "Pickup request received and appears feasible. Logistics is being notified and will confirm exact details."),
                   ("requires_cold_chain", .bool randBool)])]⟩
            else
              ⟨200, .obj [("status", .str "unavailable"),
                ("message", .str ("Unable to schedule pickup for " ++ toString qty
                  ++ " kg. Only found approximately " ++ toString availableKg
                  ++ " kg recently harvested or on hand for this product at this farm. Please adjust quantity or date."))]⟩
          else
            ⟨500, .obj [("status", .str "error"),
              ("message", .str "Failed to check farm availability."),
              ("details", .str availErr)]⟩
    | _ => ⟨400, errBody "Invalid requested_date format. Expected YYYY-MM-DD."⟩

/-- The per-process state and modelled external outcomes the agrioptimize
entry point threads to its handlers. -/
structure AgriCtx where
  clientPresent : Bool
  healthOk : Bool
  healthErr : String
  parseDate : String → Option Int
  uuid : String
  todayIso : String
  insertHarvest : Option String
  insertQc : Option String
  hFetch : Fetch
  qFetch : Fetch
  sFetch : Fetch
  fFetch : Fetch
  harvestDb : List HarvestRow
  availOk : Bool
  availErr : String
  rng : Nat → Nat
  randBool : Bool

/-- `agrioptimize_backend_function` (agrioptimize `main.py`): health check
on `GET /`, JSON-body guard on `POST`, path routing, 404/405 otherwise. -/
def agrioptimize_backend_function (ctx : AgriCtx) (req : HttpRequest) : HResp :=
  if req.method == "GET" && req.path == "/" then
    if ctx.clientPresent then
      if ctx.healthOk then
        ⟨200, .str "AgriOptimize AI Backend is running and connected to BigQuery!"⟩
      else
        ⟨500, .str ("AgriOptimize AI Backend health check failed: " ++ ctx.healthErr)⟩
    else
      ⟨500, .str "AgriOptimize AI Backend is running, but BigQuery client not initialized."⟩
  else if req.method == "POST" then
    match req.jsonBody with
    | none =>
      if !(pyLower (req.contentType.getD "") == "application/json") then
        ⟨415, errBody "Unsupported Media Type. Expected 'application/json'."⟩
      else
        ⟨400, errBody "Invalid JSON body received."⟩
    | some data =>
      if req.path == "/harvest" then
        (handle_log_harvest ctx.parseDate ctx.uuid ctx.insertHarvest data).1
      else if req.path == "/advice/harvest" then
        handle_get_harvest_advice ctx.hFetch ctx.qFetch ctx.sFetch ctx.fFetch data
      else if req.path == "/issue/farm" then
        (handle_report_farm_qc_issue ctx.parseDate ctx.uuid ctx.todayIso ctx.insertQc data).1
      else if req.path == "/schedule/pickup" then
        handle_schedule_farm_pickup ctx.parseDate ctx.harvestDb ctx.availOk
          ctx.availErr ctx.rng ctx.randBool data
      else
        ⟨404, errBody ("Endpoint " ++ req.path ++ " not found.")⟩
  else
    ⟨405, errBody ("Method " ++ req.method ++ " not allowed for path " ++ req.path ++ ".")⟩

end FreshFlow.Agrioptimize

namespace FreshFlow.Logifresh

/-! ## `logifresh/main.py` -/

def SHIPMENTS_TABLE : String := "shipments"

def COLD_CHAIN_READINGS_TABLE : String := "cold_chain_readings"

def VEHICLES_TABLE : String := "vehicles"

/-- `handle_track_shipment_location` (logifresh `main.py`).
`shipFetch` is the outcome of the shipment lookup (`LIMIT 1`), `coldFetch`
of the cold-chain-readings query (only consulted when the shipment row's
`requires_cold_chain` is truthy). -/
def handle_track_shipment_location (shipFetch coldFetch : Fetch)
    (data : Data) : HResp :=
  match checkRequired ["shipment_id"] data with
  | some msg => ⟨400, errBody msg⟩
  | none =>
    let sid := pyStr ((data.lookup "shipment_id").getD .null)
    match shipFetch with
    | .error e =>
      ⟨500, .obj [("status", .str "error"),
        ("message", .str "Failed to retrieve shipment details."),
        ("details", .str e)]⟩
    | .ok [] =>
      ⟨200, .obj [("status", .str "not_found"),
        ("message", .str ("Shipment ID " ++ sid ++ " not found."))]⟩
    | .ok (info :: _) =>
      let requiresCold := pytruthy ((getField info "requires_cold_chain").getD (.bool false))
      let ccOk : Bool := if requiresCold then fetchOk coldFetch else true
      let readings : List JVal :=
        if requiresCold then
          match coldFetch with
          | .ok l => l
          | .error _ => []  -- reset to [] on failure before responding
        else []
      if ccOk then
        ⟨200, .obj [("status", .str "success"),
          ("shipment_details", info),
          ("recent_cold_chain_readings", .arr readings)]⟩
      else
        -- only the cold-chain query can have failed here, and its variable
        -- was reset to [] before the f-string was built
        ⟨200, .obj [("status", .str "warning"),
          ("message", .str "Data retrieval issues encountered."),
          ("details", .str "Cold chain query failed: []"),
          ("shipment_details", info),
          ("recent_cold_chain_readings", .arr readings)]⟩

/-- `handle_report_cold_chain_issue` (logifresh `main.py`).
`parseTs` stands for `datetime.fromisoformat(ts.replace('Z', '+00:00'))`
followed by `.isoformat()`; a non-string timestamp raises
`AttributeError`, caught only by the outer handler (500). -/
def handle_report_cold_chain_issue (parseTs : String → Option String)
    (uuid : String) (insertRes : Option String) (data : Data) :
    HResp × List DbWrite :=
  match checkRequired ["shipment_id", "temperature_celsius", "timestamp"] data with
  | some msg => (⟨400, errBody msg⟩, [])
  | none =>
    match toRatOpt ((data.lookup "temperature_celsius").getD JVal.null) with
    | none => (⟨400, errBody "Invalid format for temperature_celsius. Expected number."⟩, [])
    | some t =>
      match data.lookup "timestamp" with
      | some (JVal.str ts) =>
        match parseTs ts with
        | none => (⟨400, errBody "Invalid timestamp format. Expected ISO 8601 format."⟩, [])
        | some tsIso =>
          let row : JVal := .obj
            [("reading_id", .str uuid),
             ("shipment_id", (data.lookup "shipment_id").getD .null),
             ("vehicle_id", (data.lookup "vehicle_id").getD .null),
             ("timestamp", .str tsIso),
             ("temperature_celsius", .rat t),
             ("location", (data.lookup "location").getD .null),
             ("sensor_id", (data.lookup "sensor_id").getD (.str "Unknown"))]
          match insertRes with
          | none =>
            let msg0 := "Cold chain reading reported successfully."
            let msg1 := if (8 : ℚ) < t then msg0 ++ " Warning: Temperature is elevated." else msg0
            let msg := if (15 : ℚ) < t then "Critical: High temperature excursion reported." else msg1
            (⟨200, .obj [("status", .str "success"), ("reading_id", .str uuid),
               ("message", .str msg)]⟩,
             [.insert COLD_CHAIN_READINGS_TABLE [row]])
          | some e =>
            (⟨500, .obj [("status", .str "error"),
               ("message", .str "Failed to report cold chain reading."),
               ("details", .str e)]⟩,
             [.insert COLD_CHAIN_READINGS_TABLE [row]])
      | _ => (⟨500, errBody "An internal error occurred."⟩, [])

/-- `handle_check_warehouse_stock` (logifresh `main.py`): the filters only
shape the query behind `stockFetch`. -/
def handle_check_warehouse_stock (stockFetch : Fetch) (data : Data) : HResp :=
  match checkRequired ["location_id"] data with
  | some msg => ⟨400, errBody msg⟩
  | none =>
    match stockFetch with
    | .ok items =>
      ⟨200, .obj [("status", .str "success"),
        ("location_id", (data.lookup "location_id").getD .null),
        ("stock_items", .arr items)]⟩
    | .error e =>
      ⟨500, .obj [("status", .str "error"),
        ("message", .str "Failed to retrieve warehouse stock."),
        ("details", .str e)]⟩

/-- A row of the customer-location lookup used by the route simulation. -/
structure CustRow where
  customer_id : String
  shipping_address : String

/-- Fisher-Yates-style shuffle driven by the `rng` stream (models
`random.shuffle`): repeatedly extracts the element at a stream-chosen
index. -/
def shuffleFuel (rng : Nat → Nat) : Nat → Nat → List CustRow → List CustRow
  | 0, _, xs => xs
  | fuel + 1, k, xs =>
    match xs.get? (rng k % xs.length) with
    | none => []
    | some y => y :: shuffleFuel rng fuel (k + 1) (xs.eraseIdx (rng k % xs.length))

/-- `random.shuffle(customer_locations)`. -/
def shuffle (rng : Nat → Nat) (k : Nat) (xs : List CustRow) : List CustRow :=
  shuffleFuel rng xs.length k xs

/-- The simulated stop list of `handle_optimize_delivery_route`: stop `i`
(0-based here, 1-based in the response) arrives at
`current_time + (i+1) * estimated_duration_per_stop_minutes`, and
`current_time` is advanced to each arrival. -/
def mkStops (d : Int) (svc : Nat → Int) : Nat → Int → List CustRow → List JVal
  | _, _, [] => []
  | i, cur, c :: rest =>
    let arrival := cur + ((i : Int) + 1) * d
    JVal.obj [("stop_number", .int ((i : Int) + 1)),
      ("destination_id", .str c.customer_id),
      ("destination_address", .str c.shipping_address),
      ("estimated_arrival_time", .int arrival),
      ("estimated_service_duration_minutes", .int (svc i))]
      :: mkStops d svc (i + 1) arrival rest

/-- `handle_optimize_delivery_route` (logifresh `main.py`).  All inputs
are the warehouse fetch outcomes (`vehFetch` for the vehicle row,
`custFetch` for the `customers` IN-clause lookup), the current time `now`
(minutes) and the random stream.  The route is simulated: the customers
are shuffled and arrival times generated arithmetically; no routing
service is consulted (the source imports no HTTP client and builds the
stops from `customer_locations` alone). -/
def handle_optimize_delivery_route (vehFetch : Fetch)
    (custFetch : Except String (List CustRow)) (now : Int)
    (rng : Nat → Nat) (data : Data) : HResp :=
  match checkRequired ["destination_locations", "vehicle_id"] data with
  | some msg => ⟨400, errBody msg⟩
  | none =>
    let destsOk : Bool :=
      match data.lookup "destination_locations" with
      | some (JVal.arr (_ :: _)) => true
      | _ => false
    if !destsOk then
      ⟨400, errBody "Field 'destination_locations' must be a non-empty list."⟩
    else
      let vid := pyStr ((data.lookup "vehicle_id").getD .null)
      match vehFetch with
      | .error e =>
        ⟨500, .obj [("status", .str "error"),
          ("message", .str "Failed to retrieve vehicle details."),
          ("details", .str e)]⟩
      | .ok [] =>
        ⟨200, .obj [("status", .str "not_found"),
          ("message", .str ("Vehicle ID " ++ vid ++ " not found."))]⟩
      | .ok (_ :: _) =>
        let customers : List CustRow :=
          match custFetch with
          | .ok l => l
          | .error _ => []  -- lookup failure: continue with no destinations
        if customers.isEmpty then
          ⟨200, .obj [("status", .str "unavailable"),
            ("message", .str "Could not find valid destinations based on provided IDs.")]⟩
        else
          let d : Int := randint 30 90 (rng 0)
          let shuffled := shuffle rng 1 customers
          let svc : Nat → Int := fun i => randint 15 45 (rng (100 + i))
          let stops := mkStops d svc 0 now shuffled
          ⟨200, .obj [("status", .str "success"),
            ("vehicle_id", (data.lookup "vehicle_id").getD .null),
            ("num_stops", .int (stops.length : Int)),
            ("estimated_total_duration_minutes", .int ((customers.length : Int) * d)),
            ("route_stops", .arr stops),
            ("message", .str "Simulated route generated.")]⟩

/-- `handle_schedule_farm_pickup_logistics` (logifresh `main.py`): the
receiving end of the pickup request.  Missing required fields are reported
with status code 200 ("Return 200 as this might be an async trigger"). -/
def handle_schedule_farm_pickup_logistics (data : Data) : HResp :=
  match checkRequired ["farm_id", "product_id", "quantity_kg", "requested_date"] data with
  | some _ =>
    let missing := missingFields ["farm_id", "product_id", "quantity_kg", "requested_date"] data
    ⟨200, .obj [("status", .str "error"),
      ("message", .str ("Logistics Pickup Request Error: Missing required fields: "
        ++ String.intercalate ", " missing))]⟩
  | none =>
    ⟨200, .obj [("status", .str "acknowledged"),
      ("message", .str "Pickup request received by Logistics.")]⟩

/-- The per-process state and modelled external outcomes the logifresh
entry point threads to its handlers. -/
structure LogiCtx where
  healthOk : Bool
  healthErr : String
  parseTs : String → Option String
  uuid : String
  insertCold : Option String
  shipFetch : Fetch
  coldFetch : Fetch
  stockFetch : Fetch
  vehFetch : Fetch
  custFetch : Except String (List CustRow)
  now : Int
  rng : Nat → Nat

/-- `logifresh_backend_function` (logifresh `main.py`). -/
def logifresh_backend_function (ctx : LogiCtx) (req : HttpRequest) : HResp :=
  if req.method == "GET" && req.path == "/" then
    if ctx.healthOk then
      ⟨200, .str "LogiFresh AI Backend is running and connected to BigQuery!"⟩
    else
      ⟨500, .str ("LogiFresh AI Backend health check failed: " ++ ctx.healthErr)⟩
  else if req.method == "POST" then
    match req.jsonBody with
    | none =>
      if !(pyLower (req.contentType.getD "") == "application/json") then
        ⟨415, errBody "Unsupported Media Type. Expected 'application/json'."⟩
      else
        ⟨400, errBody "Invalid JSON body received."⟩
    | some data =>
      if req.path == "/shipment/status" then
        handle_track_shipment_location ctx.shipFetch ctx.coldFetch data
      else if req.path == "/issue/coldchain" then
        (handle_report_cold_chain_issue ctx.parseTs ctx.uuid ctx.insertCold data).1
      else if req.path == "/inventory/stock" then
        handle_check_warehouse_stock ctx.stockFetch data
      else if req.path == "/route/optimize" then
        handle_optimize_delivery_route ctx.vehFetch ctx.custFetch ctx.now ctx.rng data
      else if req.path == "/logistics/schedule-pickup-request" then
        handle_schedule_farm_pickup_logistics data
      else
        ⟨404, errBody ("Endpoint " ++ req.path ++ " not found.")⟩
  else
    ⟨405, errBody ("Method " ++ req.method ++ " not allowed for path " ++ req.path ++ ".")⟩

end FreshFlow.Logifresh

namespace FreshFlow.Marketflow

/-! ## `marketflow/main.py` -/

def ORDERS_TABLE : String := "orders"

def ORDER_ITEMS_TABLE : String := "order_items"

/-- `handle_get_demand_forecast` (marketflow `main.py`). -/
def handle_get_demand_forecast (fcFetch : Fetch) (data : Data) : HResp :=
  match checkRequired ["product_id", "target_date_start", "target_date_end"] data with
  | some msg => ⟨400, errBody msg⟩
  | none =>
    match fcFetch with
    | .ok forecasts =>
      ⟨200, .obj [("status", .str "success"), ("forecasts", .arr forecasts)]⟩
    | .error e =>
      ⟨500, .obj [("status", .str "error"),
        ("message", .str "Failed to retrieve demand forecasts."),
        ("details", .str e)]⟩

/-- `handle_get_market_prices` (marketflow `main.py`).  `todayIso` is the
default for the optional `date` field. -/
def handle_get_market_prices (prFetch : Fetch) (todayIso : String)
    (data : Data) : HResp :=
  match checkRequired ["product_id"] data with
  | some msg => ⟨400, errBody msg⟩
  | none =>
    let dateStr := pyStr ((data.lookup "date").getD (.str todayIso))
    let regionGiven := pytruthy ((data.lookup "region").getD .null)
    match prFetch with
    | .ok (p :: ps) =>
      ⟨200, .obj [("status", .str "success"), ("prices", .arr (p :: ps))]⟩
    | .ok [] =>
      ⟨200, .obj [("status", .str "success"), ("prices", .arr []),
        ("message", .str ("No market price found for "
          ++ pyStr ((data.lookup "product_id").getD .null) ++ " on " ++ dateStr
          ++ (if regionGiven then " in " ++ pyStr ((data.lookup "region").getD .null) else "")
          ++ "."))]⟩
    | .error e =>
      ⟨500, .obj [("status", .str "error"),
        ("message", .str "Failed to retrieve market prices."),
        ("details", .str e)]⟩

/-- Outcome of one of the three aggregate lookups in
`handle_check_product_availability`: failure carries the error string;
success carries the single aggregate row's value (`none` = SQL `NULL`). -/
abbrev AggFetch := Except String (Option Int)

/-- `x if success and result and result[0][col] is not None else 0`. -/
def aggVal : AggFetch → Int
  | .ok (some v) => v
  | _ => 0

/-- `handle_check_product_availability` (marketflow `main.py`): three
aggregations (stock on hand, incoming shipments, upcoming harvests); the
location count of the stock query is carried alongside. -/
def handle_check_product_availability (stockAgg : AggFetch) (numLoc : Int)
    (shipAgg schedAgg : AggFetch) (data : Data) : HResp :=
  match checkRequired ["product_id"] data with
  | some msg => ⟨400, errBody msg⟩
  | none =>
    let ok := fun (a : AggFetch) => match a with | .ok _ => true | .error _ => false
    let err := fun (a : AggFetch) => match a with | .ok _ => "" | .error e => e
    if ok stockAgg && ok shipAgg && ok schedAgg then
      ⟨200, .obj [("status", .str "success"),
        ("product_id", (data.lookup "product_id").getD .null),
        ("location_id", (data.lookup "location_id").getD .null),
        ("total_on_hand_kg", .int (aggVal stockAgg)),
        ("num_stock_locations", .int (if ok stockAgg then numLoc else 0)),
        ("total_incoming_shipments_kg", .int (aggVal shipAgg)),
        ("total_upcoming_harvest_kg", .int (aggVal schedAgg))]⟩
    else
      let msgs : List String :=
        (if ok stockAgg then [] else ["Stock query failed: " ++ err stockAgg]) ++
        (if ok shipAgg then [] else ["Shipment query failed: " ++ err shipAgg]) ++
        (if ok schedAgg then [] else ["Schedule query failed: " ++ err schedAgg])
      ⟨500, .obj [("status", .str "error"),
        ("message", .str "Failed to retrieve availability data."),
        ("details", .str (String.intercalate " | " msgs))]⟩

/-- `round(x, 2)` on the exact-rational model of a Python float. -/
def round2 (q : ℚ) : ℚ := (ratFloor (q * 100 + 1 / 2) : ℚ) / 100

/-- One validated line item of a purchase order. -/
structure OrderItem where
  product_id : JVal
  ordered_quantity_kg : Int
  price_per_kg_at_order : ℚ
  line_item_total : ℚ

/-- The item-validation loop of `handle_place_purchase_order`: each item
needs `product_id` and `quantity_kg`, the quantity must be a positive
integer; `uniform i` is the `random.uniform(1.0, 5.0)` draw for item `i`.
Returns the 400 message or the validated items. -/
def validateItems (uniform : Nat → ℚ) : Nat → List JVal → Except String (List OrderItem)
  | _, [] => .ok []
  | i, item :: rest =>
    match getField item "product_id", getField item "quantity_kg" with
    | some pid, some q =>
      match toIntOpt q with
      | none => .error ("Invalid quantity_kg format for product " ++ pyStr pid ++ ". Expected integer.")
      | some qty =>
        if qty ≤ 0 then
          .error ("Invalid quantity for product " ++ pyStr pid ++ ". Must be positive integer.")
        else
          let price := round2 (uniform i)
          let lineTotal := round2 ((qty : ℚ) * price)
          match validateItems uniform (i + 1) rest with
          | .error e => .error e
          | .ok items => .ok (⟨pid, qty, price, lineTotal⟩ :: items)
    | _, _ => .error "Each item in 'items' must have 'product_id' and 'quantity_kg'."

/-- `handle_place_purchase_order` (marketflow `main.py`).  `uuids` is the
stream of `str(uuid.uuid4())` draws (`uuids 0` = order id, `uuids (i+1)` =
item `i`'s id), `custFetch` the customer shipping-address lookup (failure
is tolerated), `insertOrder` / `insertItems` the two insert outcomes.
Returns the response and the warehouse write trace. -/
def handle_place_purchase_order (uuids : Nat → String) (todayIso : String)
    (uniform : Nat → ℚ) (custFetch : Fetch)
    (insertOrder insertItems : Option String) (data : Data) :
    HResp × List DbWrite :=
  match checkRequired ["customer_id", "items"] data with
  | some msg => (⟨400, errBody msg⟩, [])
  | none =>
    match data.lookup "items" with
    | some (JVal.arr (it :: its)) =>
      match validateItems uniform 0 (it :: its) with
      | .error msg => (⟨400, errBody msg⟩, [])
      | .ok items =>
        let orderId := uuids 0
        let totalAmount := (items.map (fun i => i.line_item_total)).sum
        let deliveryAddress : JVal :=
          match custFetch with
          | .ok (c :: _) => (getField c "shipping_address").getD .null
          | _ => .str "Unknown Address"
        let orderRow : JVal := .obj
          [("order_id", .str orderId),
           ("customer_id", (data.lookup "customer_id").getD .null),
           ("order_date", .str todayIso),
           ("delivery_date_requested", (data.lookup "delivery_date_requested").getD (.str todayIso)),
           ("delivery_address", (data.lookup "delivery_address").getD deliveryAddress),
           ("status", (data.lookup "status").getD (.str "Pending")),
           ("total_amount", .rat (round2 totalAmount))]
        let itemRows : List JVal := items.enum.map (fun p => JVal.obj
          [("order_item_id", .str (uuids (p.1 + 1))),
           ("order_id", .str orderId),
           ("product_id", p.2.product_id),
           ("ordered_quantity_kg", .int p.2.ordered_quantity_kg),
           ("price_per_kg_at_order", .rat p.2.price_per_kg_at_order),
           ("line_item_total", .rat p.2.line_item_total)])
        let trace : List DbWrite :=
          [.insert ORDERS_TABLE [orderRow], .insert ORDER_ITEMS_TABLE itemRows]
        match insertOrder, insertItems with
        | none, none =>
          (⟨200, .obj [("status", .str "success"), ("order_id", .str orderId),
             ("message", .str "Purchase order placed successfully."),
             ("total_amount", .rat totalAmount)]⟩, trace)
        | o, i =>
          let msgs : List String :=
            (match o with | some e => ["Order insert failed: " ++ e] | none => []) ++
            (match i with | some e => ["Order items insert failed: " ++ e] | none => [])
          (⟨500, .obj [("status", .str "error"),
             ("message", .str "Failed to place purchase order."),
             ("details", .str (String.intercalate " | " msgs))]⟩, trace)
    | _ => (⟨400, errBody "Field 'items' must be a non-empty list."⟩, [])

/-- The per-process state and modelled external outcomes the marketflow
entry point threads to its handlers. -/
structure MarketCtx where
  healthOk : Bool
  healthErr : String
  todayIso : String
  fcFetch : Fetch
  prFetch : Fetch
  stockAgg : AggFetch
  numLoc : Int
  shipAgg : AggFetch
  schedAgg : AggFetch
  uuids : Nat → String
  uniform : Nat → ℚ
  custFetch : Fetch
  insertOrder : Option String
  insertItems : Option String

/-- `marketflow_backend_function` (marketflow `main.py`). -/
def marketflow_backend_function (ctx : MarketCtx) (req : HttpRequest) : HResp :=
  if req.method == "GET" && req.path == "/" then
    if ctx.healthOk then
      ⟨200, .str "MarketFlow AI Backend is running and connected to BigQuery!"⟩
    else
      ⟨500, .str ("MarketFlow AI Backend health check failed: " ++ ctx.healthErr)⟩
  else if req.method == "POST" then
    match req.jsonBody with
    | none =>
      if !(pyLower (req.contentType.getD "") == "application/json") then
        ⟨415, errBody "Unsupported Media Type. Expected 'application/json'."⟩
      else
        ⟨400, errBody "Invalid JSON body received."⟩
    | some data =>
      if req.path == "/forecast" then
        handle_get_demand_forecast ctx.fcFetch data
      else if req.path == "/prices/current" then
        handle_get_market_prices ctx.prFetch ctx.todayIso data
      else if req.path == "/inventory/available" then
        handle_check_product_availability ctx.stockAgg ctx.numLoc ctx.shipAgg ctx.schedAgg data
      else if req.path == "/order" then
        (handle_place_purchase_order ctx.uuids ctx.todayIso ctx.uniform
          ctx.custFetch ctx.insertOrder ctx.insertItems data).1
      else
        ⟨404, errBody ("Endpoint " ++ req.path ++ " not found.")⟩
  else
    ⟨405, errBody ("Method " ++ req.method ++ " not allowed for path " ++ req.path ++ ".")⟩

end FreshFlow.Marketflow

namespace FreshFlow.GetProduct

/-! ## `getproduct/main.py` -/

/-- `lookup_product_by_name` (getproduct `main.py`): no method check; an
absent or falsy `product_name` falls back to the initial-list query
(`fetchAll`), otherwise the LIKE query (`fetchMatch`) runs.  The function
body never reads `request.method` or `request.path`. -/
def lookup_product_by_name (fetchAll fetchMatch : Fetch) (req : HttpRequest) : HResp :=
  let nameGiven :=
    match req.jsonBody with
    | some data => pytruthy ((data.lookup "product_name").getD .null)
    | none => false
  match (if nameGiven then fetchMatch else fetchAll) with
  | .ok ms => ⟨200, .obj [("matches", .arr ms)]⟩
  | .error e =>
    ⟨500, .obj [("error", .str "Internal server error during product lookup"),
      ("details", .str e)]⟩

end FreshFlow.GetProduct

namespace FreshFlow.GetCustomerDetails

/-! ## `getcustomerdetails/main.py` -/

/-- `lookup_customer_by_name` (getcustomerdetails `main.py`): same shape
as the product lookup, keyed on `customer_name_query`. -/
def lookup_customer_by_name (fetchAll fetchMatch : Fetch) (req : HttpRequest) : HResp :=
  let nameGiven :=
    match req.jsonBody with
    | some data => pytruthy ((data.lookup "customer_name_query").getD .null)
    | none => false
  match (if nameGiven then fetchMatch else fetchAll) with
  | .ok ms => ⟨200, .obj [("matches", .arr ms)]⟩
  | .error e =>
    ⟨500, .obj [("error", .str "Internal server error during customer lookup"),
      ("details", .str e)]⟩

end FreshFlow.GetCustomerDetails

namespace FreshFlow.GetFirmDetails

/-! ## `getfirmdetails/main.py` -/

/-- `lookup_farm_by_name` (getfirmdetails `main.py`): same shape as the
product lookup, keyed on `farm_name` (matched against name or location). -/
def lookup_farm_by_name (fetchAll fetchMatch : Fetch) (req : HttpRequest) : HResp :=
  let nameGiven :=
    match req.jsonBody with
    | some data => pytruthy ((data.lookup "farm_name").getD .null)
    | none => false
  match (if nameGiven then fetchMatch else fetchAll) with
  | .ok ms => ⟨200, .obj [("matches", .arr ms)]⟩
  | .error e =>
    ⟨500, .obj [("error", .str "Internal server error during farm lookup"),
      ("details", .str e)]⟩

end FreshFlow.GetFirmDetails

namespace FreshFlow.GetVehicleDetails

/-! ## `getvehicledetails/main.py` -/

/-- A row of the `vehicles` table as selected by the license lookup. -/
structure VRow where
  vehicle_id : String
  carrier_name : String
  vehicle_type : String
  capacity_kg : Int
  has_temperature_monitoring : Bool
  vehicle_license_no : String

/-- The response dict built from a matching vehicle row. -/
def vrowJ (r : VRow) : JVal := .obj
  [("vehicle_id", .str r.vehicle_id),
   ("carrier_name", .str r.carrier_name),
   ("vehicle_type", .str r.vehicle_type),
   ("capacity_kg", .int r.capacity_kg),
   ("has_temperature_monitoring", .bool r.has_temperature_monitoring),
   ("vehicle_license_no", .str r.vehicle_license_no)]

/-- `lookup_vehicle_by_license` (getvehicledetails `main.py`): 400 when
`vehicle_license_no` is missing or falsy, 404 with an empty `matches` list
when the query returns no row, 200 with the single match otherwise.  No
method check is performed. -/
def lookup_vehicle_by_license (vehFetch : Except String (List VRow))
    (req : HttpRequest) : HResp :=
  let licOpt : Option String :=
    match req.jsonBody with
    | some data =>
      match data.lookup "vehicle_license_no" with
      | some v => if pytruthy v then some (pyStr v) else none
      | none => none
    | none => none
  match licOpt with
  | none => ⟨400, .obj [("error", .str "Missing or empty vehicle_license_no in request body")]⟩
  | some lic =>
    match vehFetch with
    | .error e =>
      ⟨500, .obj [("error", .str "Internal server error during vehicle lookup"),
        ("details", .str e)]⟩
    | .ok [] =>
      ⟨404, .obj [("error", .str ("Vehicle with license '" ++ lic ++ "' not found")),
        ("matches", .arr [])]⟩
    | .ok (r :: _) =>
      ⟨200, .obj [("matches", .arr [vrowJ r])]⟩

end FreshFlow.GetVehicleDetails

namespace FreshFlow.GetOpt

/-! ## `getoptimizedeliveryroute/main.py` -/

/-- Geographic coordinates produced by the geocoding helpers. -/
structure Coords where
  latitude : ℚ
  longitude : ℚ

/-- One destination produced by `get_destination_details_for_orders`
(order id, original address string, geocoded coordinates, random
quantity). -/
structure DestDetail where
  order_id : String
  address : String
  latitude : ℚ
  longitude : ℚ
  total_kg : Int

/-- One leg of a Google Routes API `computeRoutes` result. -/
structure RLeg where
  duration : String
  distanceMeters : Int

/-- One route of a `computeRoutes` result. -/
structure RouteObj where
  duration : String
  distanceMeters : Int
  legs : List RLeg

/-- A `computeRoutes` response body. -/
structure RoutesResult where
  routes : List RouteObj

/-- `parse_duration_string` (getoptimizedeliveryroute `main.py`),
returning seconds; `none` where the Python raises `ValueError` (as it
does, e.g., on a plain `"300s"`, whose final branch calls
`int("300s")`). -/
def parse_duration_string (s : String) : Option Int :=
  if !(s == "") && s.contains 's' then
    match (s.replace "s" "").splitOn "h" with
    | p0 :: p1 :: _ =>
      match p0.trim.toInt? with
      | none => none
      | some hours =>
        let msPart := p1.trim
        if msPart.contains 'm' then
          match msPart.splitOn "m" with
          | [mm, ss] =>
            match mm.trim.toInt?, ss.trim.toInt? with
            | some m, some sec => some (hours * 3600 + m * 60 + sec)
            | _, _ => none
          | _ => none
        else if !(msPart == "") then
          (msPart.toInt?).map (fun x => hours * 3600 + x)
        else some (hours * 3600)
    | _ =>
      -- no 'h': the code re-inspects the ORIGINAL string (still holding 's')
      if s.contains 'm' then
        match s.splitOn "m" with
        | [mm, ss] =>
          match mm.trim.toInt?, ss.trim.toInt? with
          | some m, some sec => some (m * 60 + sec)
          | _, _ => none
        | _ => none
      else s.trim.toInt?
  else some 0

/-- The per-leg stop construction of `handle_optimize_delivery_route`:
leg `i` ends at destination `i` when `i < len(destination_details)`
(later legs only advance the cumulative duration); `none` when a leg
duration fails to parse (the Python exception escapes the handler). -/
def legStops (departure : Int) : Nat → Int → List RLeg → List DestDetail → Option (List JVal)
  | _, _, [], _ => some []
  | i, cum, leg :: legs, dests =>
    match parse_duration_string leg.duration with
    | none => none
    | some secs =>
      let cum2 := cum + secs
      match dests with
      | d :: ds =>
        let stop : JVal := .obj
          [("stop_number", .int ((i : Int) + 1)),
           ("destination_id", .str d.order_id),
           ("destination_address", .str d.address),
           ("estimated_arrival_time", .int (departure + cum2)),
           ("estimated_duration_from_previous_stop", .str leg.duration),
           ("estimated_distance_from_previous_stop_meters", .int leg.distanceMeters),
           ("total_kg_for_stop", .int d.total_kg)]
        (legStops departure (i + 1) cum2 legs ds).map (fun rest => stop :: rest)
      | [] => legStops departure (i + 1) cum2 legs []

/-- The origin entry of the stop list. -/
def originStop (originId : JVal) (departure : Int) : JVal := .obj
  [("stop_number", .int 0),
   ("location_id", originId),
   ("location_type", .str "Origin"),
   ("estimated_arrival_time", .int departure),
   ("estimated_duration_from_previous_stop", .str "0s"),
   ("estimated_distance_from_previous_stop_meters", .int 0)]

/-- `handle_optimize_delivery_route` (getoptimizedeliveryroute
`main.py`), the standalone Cloud Function.  `locOracle` stands for
`get_location_coordinates` (BigQuery lookup + geocoding; `.error` when an
exception escapes it), `dests` for the result of
`get_destination_details_for_orders`, `_vehInfo` for the optional vehicle
lookup (failures are swallowed), and `routesApi` for the outcome of
`call_routes_api_compute_routes`: the route returned to the caller is
re-packaged from this third-party response.  Times are in seconds;
`departure = now + 60 * randint(5, 15)`. -/
def handle_optimize_delivery_route (locOracle : Except String (Option Coords))
    (dests : List DestDetail) (_vehInfo : Option JVal)
    (routesApi : Except String RoutesResult) (now : Int) (rng : Nat → Nat)
    (req : HttpRequest) : HResp :=
  if !(req.method == "POST") then
    ⟨405, .obj [("error", .str "Method not allowed")]⟩
  else
    match req.jsonBody with
    | none =>
      -- `request_json.get` on None raises; the framework answers 500
      ⟨500, .str "Internal Server Error"⟩
    | some data =>
      let originV := (data.lookup "origin_location_id").getD .null
      let destIdsV := (data.lookup "destination_order_ids").getD .null
      if !pytruthy originV || !pytruthy destIdsV then
        ⟨400, .obj [("status", .str "error"),
          ("message", .str "Missing required input parameters")]⟩
      else
        let destIdsOk : Bool :=
          match destIdsV with
          | .arr (_ :: _) => true
          | _ => false
        if !destIdsOk then
          ⟨400, .obj [("status", .str "error"),
            ("message", .str "Field \"destination_order_ids\" must be a non-empty list.")]⟩
        else
          match locOracle with
          | .error _ =>
            ⟨500, .obj [("status", .str "error"),
              ("message", .str "Error retrieving necessary data")]⟩
          | .ok none =>
            ⟨404, .obj [("status", .str "not_found"),
              ("message", .str ("Origin location ID " ++ pyStr originV
                ++ " not found or coordinates unavailable."))]⟩
          | .ok (some _) =>
            if dests.isEmpty then
              ⟨200, .obj [("status", .str "unavailable"),
                ("message", .str "Could not find valid destinations or coordinates for provided order IDs.")]⟩
            else
              match routesApi with
              | .error e =>
                ⟨500, .obj [("status", .str "error"),
                  ("message", .str "Failed to compute route via routing service"),
                  ("details", .str e)]⟩
              | .ok result =>
                match result.routes with
                | [] =>
                  ⟨200, .obj [("status", .str "unavailable"),
                    ("message", .str "Could not compute a route with the provided locations.")]⟩
                | mainRoute :: _ =>
                  let departure := now + 60 * (randint 5 15 (rng 0) : Int)
                  match legStops departure 0 0 mainRoute.legs dests with
                  | none => ⟨500, .str "Internal Server Error"⟩
                  | some stops =>
                    ⟨200, .obj [("status", .str "success"),
                      ("vehicle_id", (data.lookup "vehicle_id").getD .null),
                      ("num_stops_on_route", .int ((mainRoute.legs.length : Int) + 1)),
                      ("estimated_total_duration", .str mainRoute.duration),
                      ("estimated_total_distance_meters", .int mainRoute.distanceMeters),
                      ("route_stops", .arr (originStop originV departure :: stops)),
                      ("route_date", (data.lookup "route_date").getD .null)]⟩

end FreshFlow.GetOpt

namespace FreshFlow

/-! ## Spec-side definition for the pickup-availability claim -/

/-- Modelled from the spec's words for the pickup-availability check (for
comparison with the code's `Agrioptimize.sqlAvailSum`): "the warehouse sum
of harvested_quantity_kg for that farm and product over the 7 days up to
requested_date" — i.e. harvest dates bounded on BOTH sides. -/
def specAvailabilityWindowSum (db : List Agrioptimize.HarvestRow)
    (farm prod : String) (reqDay : Int) : Int :=
  ((db.filter (fun r => r.farm_id == farm && r.product_id == prod
      && decide (reqDay - 7 ≤ r.harvest_date) && decide (r.harvest_date ≤ reqDay))).map
    (fun r => r.harvested_quantity_kg)).sum

/-! ## Helper lemmas -/

/-- Extracting the element at index `i` is a permutation-preserving split. -/
theorem perm_get_cons_eraseIdx : ∀ (xs : List Logifresh.CustRow) (i : Nat)
    (y : Logifresh.CustRow), xs.get? i = some y → xs.Perm (y :: xs.eraseIdx i)
  | [], i, y, h => by simp at h
  | a :: t, 0, y, h => by
    simp at h
    subst h
    simp [List.eraseIdx]
  | a :: t, i + 1, y, h => by
    simp only [List.get?] at h
    have ih := perm_get_cons_eraseIdx t i y h
    have h3 : (a :: t).eraseIdx (i + 1) = a :: t.eraseIdx i := by simp [List.eraseIdx]
    rw [h3]
    exact (ih.cons a).trans (List.Perm.swap y a (t.eraseIdx i))

/-- The rng-driven shuffle is a permutation of its input. -/
theorem shuffleFuel_perm (rng : Nat → Nat) :
    ∀ (fuel k : Nat) (xs : List Logifresh.CustRow),
      (Logifresh.shuffleFuel rng fuel k xs).Perm xs
  | 0, _, xs => List.Perm.refl xs
  | fuel + 1, k, xs => by
    unfold Logifresh.shuffleFuel
    cases hx : xs.get? (rng k % xs.length) with
    | none =>
      have hlen : xs.length ≤ rng k % xs.length := List.get?_eq_none.mp hx
      cases xs with
      | nil => exact List.Perm.refl _
      | cons a t =>
        exact absurd hlen (not_le.mpr (Nat.mod_lt _ (Nat.succ_pos _)))
    | some y =>
      have ih := shuffleFuel_perm rng fuel (k + 1) (xs.eraseIdx (rng k % xs.length))
      exact ((ih.cons y).trans (perm_get_cons_eraseIdx xs _ y hx).symm)

/-- `random.shuffle` (as modelled) permutes the customer list. -/
theorem shuffle_perm (rng : Nat → Nat) (k : Nat) (xs : List Logifresh.CustRow) :
    (Logifresh.shuffle rng k xs).Perm xs :=
  shuffleFuel_perm rng xs.length k xs

/-- The simulated stops visit exactly the given customers, in order. -/
theorem mkStops_map_destination (d : Int) (svc : Nat → Int) :
    ∀ (i : Nat) (cur : Int) (l : List Logifresh.CustRow),
      (Logifresh.mkStops d svc i cur l).map (fun s => getField s "destination_id")
        = l.map (fun c => some (JVal.str c.customer_id))
  | _, _, [] => rfl
  | i, cur, c :: rest => by
    have ih := mkStops_map_destination d svc (i + 1) (cur + ((i : Int) + 1) * d) rest
    unfold Logifresh.mkStops
    simp only [List.map_cons, List.map]
    rw [ih]
    rfl

/-- Successful item validation yields one order item per input item. -/
theorem validateItems_ok_length (uniform : Nat → ℚ) :
    ∀ (i : Nat) (l : List JVal) (out : List Marketflow.OrderItem),
      Marketflow.validateItems uniform i l = .ok out → out.length = l.length
  | _, [], out, h => by
    simp [Marketflow.validateItems] at h
    simp [← h]
  | i, item :: rest, out, h => by
    unfold Marketflow.validateItems at h
    split at h
    · split at h
      · cases h
      · split at h
        · cases h
        · split at h
          · cases h
          · next items hrec =>
              cases h
              simp [validateItems_ok_length uniform (i + 1) rest items hrec]
    · cases h

end FreshFlow

namespace FreshFlow

/-! ## Claims -/

/-- Claim C6 (code_bug): the claim says POST /advice/harvest answers 500
with status "error" when all four retrieved result sets are empty, and 200
"warning" (partial data) only when at least one is non-empty — which is
also what the code's own comment intends ("Return 200 even on partial
failure if data was found for some queries").  Evaluating
`handle_get_harvest_advice` at the failing input — the harvest query fails
with a non-empty error string, the QC and schedule queries succeed with no
rows, no farm_id given — shows the code answering 200/"warning" although
no data at all was retrieved: the truthiness test
`(harvests or qc_issues or schedules or farm_details)` counts the failed
query's error string as data. -/
theorem claim_C6_thm :
    (Agrioptimize.handle_get_harvest_advice (.error "boom") (.ok []) (.ok []) (.ok []) []).code
        = 200 ∧
      (Agrioptimize.handle_get_harvest_advice (.error "boom") (.ok []) (.ok []) (.ok []) []).statusOf
        = some (JVal.str "warning") :=
  ⟨rfl, rfl⟩

/-- Claim C7 (confirmed): not-found results map to 200 or 404 depending on
the handler: a shipment lookup returning no row makes POST /shipment/status
answer 200 with status "not_found", while a vehicle-license lookup with no
matching row answers 404 with an empty `matches` list. -/
theorem claim_C7_thm :
    (∀ (cold : Fetch) (sid : String) (rest : Data),
      Logifresh.handle_track_shipment_location (.ok []) cold
          (("shipment_id", JVal.str sid) :: rest)
        = ⟨200, .obj [("status", .str "not_found"),
            ("message", .str ("Shipment ID " ++ sid ++ " not found."))]⟩) ∧
    (∀ (lic : String) (req : HttpRequest), lic ≠ "" →
      req.jsonBody = some [("vehicle_license_no", JVal.str lic)] →
      GetVehicleDetails.lookup_vehicle_by_license (.ok []) req
        = ⟨404, .obj [("error", .str ("Vehicle with license '" ++ lic ++ "' not found")),
            ("matches", .arr [])]⟩) := by
  constructor
  · intro cold sid rest
    rfl
  · intro lic req hlic hb
    have hfalse : (lic == "") = false := beq_eq_false_iff_ne.mpr hlic
    simp [GetVehicleDetails.lookup_vehicle_by_license, hb, pytruthy, hfalse, pyStr]

/-- Witness for C7: a concrete shipment id with an empty lookup gets 200
"not_found"; a concrete license with an empty lookup gets 404. -/
theorem claim_C7_witness :
    Logifresh.handle_track_shipment_location (.ok []) (.ok []) [("shipment_id", JVal.str "S1")]
        = ⟨200, .obj [("status", .str "not_found"),
            ("message", .str "Shipment ID S1 not found.")]⟩ ∧
      GetVehicleDetails.lookup_vehicle_by_license (.ok [])
          ⟨"POST", "/", some "application/json", some [("vehicle_license_no", JVal.str "XYZ")]⟩
        = ⟨404, .obj [("error", .str "Vehicle with license 'XYZ' not found"),
            ("matches", .arr [])]⟩ :=
  ⟨claim_C7_thm.1 (.ok []) "S1" [],
   claim_C7_thm.2 "XYZ" _ (by decide) rfl⟩

end FreshFlow

namespace FreshFlow


/-- Claim C10 (confirmed): for every valid POST /issue/coldchain request
(shipment id, numeric temperature, timestamp accepted by the ISO-8601
parser) whose warehouse insert succeeds, the response is 200 with status
"success" regardless of the temperature, the reading row is inserted (a
single-row insert into `cold_chain_readings` appears in the trace for
every temperature), and the message is the critical one above 15 °C, the
success-plus-warning one above 8 °C (up to 15 °C), and the plain success
message otherwise.  The timestamp parser is the oracle returning `tsIso`
for the request's single parse call. -/
theorem claim_C10_thm (u sid ts tsIso : String) (t : ℚ) (rest : Data) :
    (Logifresh.handle_report_cold_chain_issue (fun _ => some tsIso) u none
        (("shipment_id", JVal.str sid) :: ("temperature_celsius", JVal.rat t)
          :: ("timestamp", JVal.str ts) :: rest)).1.code = 200 ∧
    (Logifresh.handle_report_cold_chain_issue (fun _ => some tsIso) u none
        (("shipment_id", JVal.str sid) :: ("temperature_celsius", JVal.rat t)
          :: ("timestamp", JVal.str ts) :: rest)).1.statusOf = some (JVal.str "success") ∧
    (Logifresh.handle_report_cold_chain_issue (fun _ => some tsIso) u none
        (("shipment_id", JVal.str sid) :: ("temperature_celsius", JVal.rat t)
          :: ("timestamp", JVal.str ts) :: rest)).2.map DbWrite.tableOf
      = [Logifresh.COLD_CHAIN_READINGS_TABLE] ∧
    (Logifresh.handle_report_cold_chain_issue (fun _ => some tsIso) u none
        (("shipment_id", JVal.str sid) :: ("temperature_celsius", JVal.rat t)
          :: ("timestamp", JVal.str ts) :: rest)).2.map DbWrite.numRows = [1] ∧
    ((15 : ℚ) < t →
      (Logifresh.handle_report_cold_chain_issue (fun _ => some tsIso) u none
          (("shipment_id", JVal.str sid) :: ("temperature_celsius", JVal.rat t)
            :: ("timestamp", JVal.str ts) :: rest)).1.msgOf
        = some (.str "Critical: High temperature excursion reported.")) ∧
    ((8 : ℚ) < t → t ≤ 15 →
      (Logifresh.handle_report_cold_chain_issue (fun _ => some tsIso) u none
          (("shipment_id", JVal.str sid) :: ("temperature_celsius", JVal.rat t)
            :: ("timestamp", JVal.str ts) :: rest)).1.msgOf
        = some (.str "Cold chain reading reported successfully. Warning: Temperature is elevated.")) ∧
    (t ≤ 8 →
      (Logifresh.handle_report_cold_chain_issue (fun _ => some tsIso) u none
          (("shipment_id", JVal.str sid) :: ("temperature_celsius", JVal.rat t)
            :: ("timestamp", JVal.str ts) :: rest)).1.msgOf
        = some (.str "Cold chain reading reported successfully.")) := by
  refine ⟨rfl, rfl, rfl, rfl, ?_, ?_, ?_⟩
  · intro h15
    show some (JVal.str (if (15 : ℚ) < t then "Critical: High temperature excursion reported."
      else if (8 : ℚ) < t then "Cold chain reading reported successfully. Warning: Temperature is elevated."
      else "Cold chain reading reported successfully.")) = _
    rw [if_pos h15]
  · intro h8 h15
    show some (JVal.str (if (15 : ℚ) < t then "Critical: High temperature excursion reported."
      else if (8 : ℚ) < t then "Cold chain reading reported successfully. Warning: Temperature is elevated."
      else "Cold chain reading reported successfully.")) = _
    rw [if_neg (not_lt.mpr h15), if_pos h8]
  · intro h8
    show some (JVal.str (if (15 : ℚ) < t then "Critical: High temperature excursion reported."
      else if (8 : ℚ) < t then "Cold chain reading reported successfully. Warning: Temperature is elevated."
      else "Cold chain reading reported successfully.")) = _
    rw [if_neg (not_lt.mpr (h8.trans (by norm_num))), if_neg (not_lt.mpr h8)]

/-- Witness for C10: a concrete critical-temperature reading (20 °C) is
inserted and answered 200/"success" with the critical message. -/
theorem claim_C10_witness :
    (Logifresh.handle_report_cold_chain_issue (fun _ => some "2025-01-01T00:00:00+00:00") "u" none
        (("shipment_id", JVal.str "S1") :: ("temperature_celsius", JVal.rat 20)
          :: ("timestamp", JVal.str "2025-01-01T00:00:00Z") :: [])).1.code = 200 ∧
    (15 : ℚ) < 20 ∧
    (Logifresh.handle_report_cold_chain_issue (fun _ => some "2025-01-01T00:00:00+00:00") "u" none
        (("shipment_id", JVal.str "S1") :: ("temperature_celsius", JVal.rat 20)
          :: ("timestamp", JVal.str "2025-01-01T00:00:00Z") :: [])).1.msgOf
      = some (.str "Critical: High temperature excursion reported.") := by
  have h := claim_C10_thm "u" "S1" "2025-01-01T00:00:00Z" "2025-01-01T00:00:00+00:00" 20 []
  exact ⟨h.1, by norm_num, h.2.2.2.2.1 (by norm_num)⟩

end FreshFlow

namespace FreshFlow

/-- Claim C9 (confirmed): for every POST request to the agrioptimize,
logifresh or marketflow entry point whose body cannot be parsed as JSON
(`get_json` returns `None`), the response is 415 with "Unsupported Media
Type. Expected 'application/json'." when the lowercased Content-Type
differs from 'application/json', and 400 with "Invalid JSON body
received." otherwise — independently of the path and of every handler
oracle, so no handler-specific logic runs. -/
theorem claim_C9_thm (ctxA : Agrioptimize.AgriCtx) (ctxL : Logifresh.LogiCtx)
    (ctxM : Marketflow.MarketCtx) (p : String) (ct : Option String) :
    (pyLower (ct.getD "") ≠ "application/json" →
      Agrioptimize.agrioptimize_backend_function ctxA ⟨"POST", p, ct, none⟩
          = ⟨415, errBody "Unsupported Media Type. Expected 'application/json'."⟩ ∧
        Logifresh.logifresh_backend_function ctxL ⟨"POST", p, ct, none⟩
          = ⟨415, errBody "Unsupported Media Type. Expected 'application/json'."⟩ ∧
        Marketflow.marketflow_backend_function ctxM ⟨"POST", p, ct, none⟩
          = ⟨415, errBody "Unsupported Media Type. Expected 'application/json'."⟩) ∧
    (pyLower (ct.getD "") = "application/json" →
      Agrioptimize.agrioptimize_backend_function ctxA ⟨"POST", p, ct, none⟩
          = ⟨400, errBody "Invalid JSON body received."⟩ ∧
        Logifresh.logifresh_backend_function ctxL ⟨"POST", p, ct, none⟩
          = ⟨400, errBody "Invalid JSON body received."⟩ ∧
        Marketflow.marketflow_backend_function ctxM ⟨"POST", p, ct, none⟩
          = ⟨400, errBody "Invalid JSON body received."⟩) := by
  constructor
  · intro h
    have hb : ((pyLower (ct.getD "")) == "application/json") = false :=
      beq_eq_false_iff_ne.mpr h
    refine ⟨?_, ?_, ?_⟩
    · unfold Agrioptimize.agrioptimize_backend_function
      rw [hb]
      rfl
    · unfold Logifresh.logifresh_backend_function
      rw [hb]
      rfl
    · unfold Marketflow.marketflow_backend_function
      rw [hb]
      rfl
  · intro h
    have hb : ((pyLower (ct.getD "")) == "application/json") = true := beq_iff_eq.mpr h
    refine ⟨?_, ?_, ?_⟩
    · unfold Agrioptimize.agrioptimize_backend_function
      rw [hb]
      rfl
    · unfold Logifresh.logifresh_backend_function
      rw [hb]
      rfl
    · unfold Marketflow.marketflow_backend_function
      rw [hb]
      rfl

/-- Witness for C9: a concrete `text/plain` POST with unparseable body is
answered 415 by the agrioptimize entry point. -/
theorem claim_C9_witness :
    pyLower ((some "text/plain" : Option String).getD "") ≠ "application/json" ∧
      Agrioptimize.agrioptimize_backend_function
          ⟨true, true, "", fun _ => some 0, "u", "d", none, none, .ok [], .ok [],
            .ok [], .ok [], [], true, "", fun _ => 0, true⟩
          ⟨"POST", "/harvest", some "text/plain", none⟩
        = ⟨415, errBody "Unsupported Media Type. Expected 'application/json'."⟩ := by
  constructor
  · decide
  · exact ((claim_C9_thm
      ⟨true, true, "", fun _ => some 0, "u", "d", none, none, .ok [], .ok [],
        .ok [], .ok [], [], true, "", fun _ => 0, true⟩
      ⟨true, "", fun _ => some "", "u", none, .ok [], .ok [], .ok [], .ok [],
        .ok [], 0, fun _ => 0⟩
      ⟨true, "", "d", .ok [], .ok [], .ok none, 0, .ok none, .ok none,
        fun _ => "u", fun _ => 2, .ok [], none, none⟩
      "/harvest" (some "text/plain")).1 (by decide)).1

end FreshFlow

namespace FreshFlow

/-- Counterexample for C1: the claim says EVERY handler answers a POST
body with missing required fields with HTTP 400; but
`handle_schedule_farm_pickup_logistics` (POST
/logistics/schedule-pickup-request), given a body missing all four of its
required fields, answers 200 (with an error message), not 400. -/
theorem claim_C1_counterexample :
    (Logifresh.handle_schedule_farm_pickup_logistics []).code = 200 ∧
      (Logifresh.handle_schedule_farm_pickup_logistics []).code ≠ 400 ∧
      (Logifresh.handle_schedule_farm_pickup_logistics []).msgOf
        = some (.str "Logistics Pickup Request Error: Missing required fields: farm_id, product_id, quantity_kg, requested_date") :=
  ⟨rfl, by decide, rfl⟩

/-- Claim C1 as amended: every handler that validates required fields
answers a body with missing fields with 400 and a message naming exactly
the missing fields — except (a) the logistics pickup-request handler,
which answers 200 with an error message that still names the missing
fields, and (b) the standalone route-optimization function, whose 400
message is the generic "Missing required input parameters".  In
particular POST /harvest without harvested_quantity_kg answers 400. -/
theorem claim_C1_amended :
    (∀ (pd : String → Option Int) (u : String) (ir : Option String) (data : Data),
      missingFields ["farm_id", "product_id", "harvested_quantity_kg", "harvest_date"] data ≠ [] →
      (Agrioptimize.handle_log_harvest pd u ir data).1
        = ⟨400, errBody (missingMsg (missingFields
            ["farm_id", "product_id", "harvested_quantity_kg", "harvest_date"] data))⟩) ∧
    (∀ (pd : String → Option Int) (u ti : String) (ir : Option String) (data : Data),
      missingFields ["farm_id", "issue_type"] data ≠ [] →
      (Agrioptimize.handle_report_farm_qc_issue pd u ti ir data).1
        = ⟨400, errBody (missingMsg (missingFields ["farm_id", "issue_type"] data))⟩) ∧
    (∀ (pd : String → Option Int) (db : List Agrioptimize.HarvestRow) (ok : Bool)
      (e : String) (rng : Nat → Nat) (rb : Bool) (data : Data),
      missingFields ["farm_id", "product_id", "quantity_kg", "requested_date"] data ≠ [] →
      Agrioptimize.handle_schedule_farm_pickup pd db ok e rng rb data
        = ⟨400, errBody (missingMsg (missingFields
            ["farm_id", "product_id", "quantity_kg", "requested_date"] data))⟩) ∧
    (∀ (sf cf : Fetch) (data : Data),
      missingFields ["shipment_id"] data ≠ [] →
      Logifresh.handle_track_shipment_location sf cf data
        = ⟨400, errBody (missingMsg (missingFields ["shipment_id"] data))⟩) ∧
    (∀ (pts : String → Option String) (u : String) (ir : Option String) (data : Data),
      missingFields ["shipment_id", "temperature_celsius", "timestamp"] data ≠ [] →
      (Logifresh.handle_report_cold_chain_issue pts u ir data).1
        = ⟨400, errBody (missingMsg (missingFields
            ["shipment_id", "temperature_celsius", "timestamp"] data))⟩) ∧
    (∀ (sf : Fetch) (data : Data),
      missingFields ["location_id"] data ≠ [] →
      Logifresh.handle_check_warehouse_stock sf data
        = ⟨400, errBody (missingMsg (missingFields ["location_id"] data))⟩) ∧
    (∀ (vf : Fetch) (cf : Except String (List Logifresh.CustRow)) (now : Int)
      (rng : Nat → Nat) (data : Data),
      missingFields ["destination_locations", "vehicle_id"] data ≠ [] →
      Logifresh.handle_optimize_delivery_route vf cf now rng data
        = ⟨400, errBody (missingMsg (missingFields
            ["destination_locations", "vehicle_id"] data))⟩) ∧
    (∀ (f : Fetch) (data : Data),
      missingFields ["product_id", "target_date_start", "target_date_end"] data ≠ [] →
      Marketflow.handle_get_demand_forecast f data
        = ⟨400, errBody (missingMsg (missingFields
            ["product_id", "target_date_start", "target_date_end"] data))⟩) ∧
    (∀ (f : Fetch) (ti : String) (data : Data),
      missingFields ["product_id"] data ≠ [] →
      Marketflow.handle_get_market_prices f ti data
        = ⟨400, errBody (missingMsg (missingFields ["product_id"] data))⟩) ∧
    (∀ (sa : Marketflow.AggFetch) (nl : Int) (sha scha : Marketflow.AggFetch) (data : Data),
      missingFields ["product_id"] data ≠ [] →
      Marketflow.handle_check_product_availability sa nl sha scha data
        = ⟨400, errBody (missingMsg (missingFields ["product_id"] data))⟩) ∧
    (∀ (us : Nat → String) (ti : String) (un : Nat → ℚ) (cf : Fetch)
      (io ii : Option String) (data : Data),
      missingFields ["customer_id", "items"] data ≠ [] →
      (Marketflow.handle_place_purchase_order us ti un cf io ii data).1
        = ⟨400, errBody (missingMsg (missingFields ["customer_id", "items"] data))⟩) ∧
    (∀ (vf : Except String (List GetVehicleDetails.VRow)) (m p : String)
      (ct : Option String) (data : Data),
      data.lookup "vehicle_license_no" = none →
      GetVehicleDetails.lookup_vehicle_by_license vf ⟨m, p, ct, some data⟩
        = ⟨400, .obj [("error", .str "Missing or empty vehicle_license_no in request body")]⟩) ∧
    (∀ (data : Data),
      missingFields ["farm_id", "product_id", "quantity_kg", "requested_date"] data ≠ [] →
      Logifresh.handle_schedule_farm_pickup_logistics data
        = ⟨200, .obj [("status", .str "error"),
            ("message", .str ("Logistics Pickup Request Error: Missing required fields: "
              ++ String.intercalate ", " (missingFields
                ["farm_id", "product_id", "quantity_kg", "requested_date"] data)))]⟩) ∧
    (∀ (lo : Except String (Option GetOpt.Coords)) (ds : List GetOpt.DestDetail)
      (vi : Option JVal) (ra : Except String GetOpt.RoutesResult) (now : Int)
      (rng : Nat → Nat) (p : String) (ct : Option String) (data : Data),
      data.lookup "origin_location_id" = none →
      GetOpt.handle_optimize_delivery_route lo ds vi ra now rng ⟨"POST", p, ct, some data⟩
        = ⟨400, .obj [("status", .str "error"),
            ("message", .str "Missing required input parameters")]⟩) := by
  refine ⟨?_, ?_, ?_, ?_, ?_, ?_, ?_, ?_, ?_, ?_, ?_, ?_, ?_, ?_⟩
  · intro pd u ir data h
    cases hm : missingFields ["farm_id", "product_id", "harvested_quantity_kg", "harvest_date"] data with
    | nil => exact absurd hm h
    | cons a l => simp [Agrioptimize.handle_log_harvest, checkRequired, hm]
  · intro pd u ti ir data h
    cases hm : missingFields ["farm_id", "issue_type"] data with
    | nil => exact absurd hm h
    | cons a l => simp [Agrioptimize.handle_report_farm_qc_issue, checkRequired, hm]
  · intro pd db ok e rng rb data h
    cases hm : missingFields ["farm_id", "product_id", "quantity_kg", "requested_date"] data with
    | nil => exact absurd hm h
    | cons a l => simp [Agrioptimize.handle_schedule_farm_pickup, checkRequired, hm]
  · intro sf cf data h
    cases hm : missingFields ["shipment_id"] data with
    | nil => exact absurd hm h
    | cons a l => simp [Logifresh.handle_track_shipment_location, checkRequired, hm]
  · intro pts u ir data h
    cases hm : missingFields ["shipment_id", "temperature_celsius", "timestamp"] data with
    | nil => exact absurd hm h
    | cons a l => simp [Logifresh.handle_report_cold_chain_issue, checkRequired, hm]
  · intro sf data h
    cases hm : missingFields ["location_id"] data with
    | nil => exact absurd hm h
    | cons a l => simp [Logifresh.handle_check_warehouse_stock, checkRequired, hm]
  · intro vf cf now rng data h
    cases hm : missingFields ["destination_locations", "vehicle_id"] data with
    | nil => exact absurd hm h
    | cons a l => simp [Logifresh.handle_optimize_delivery_route, checkRequired, hm]
  · intro f data h
    cases hm : missingFields ["product_id", "target_date_start", "target_date_end"] data with
    | nil => exact absurd hm h
    | cons a l => simp [Marketflow.handle_get_demand_forecast, checkRequired, hm]
  · intro f ti data h
    cases hm : missingFields ["product_id"] data with
    | nil => exact absurd hm h
    | cons a l => simp [Marketflow.handle_get_market_prices, checkRequired, hm]
  · intro sa nl sha scha data h
    cases hm : missingFields ["product_id"] data with
    | nil => exact absurd hm h
    | cons a l => simp [Marketflow.handle_check_product_availability, checkRequired, hm]
  · intro us ti un cf io ii data h
    cases hm : missingFields ["customer_id", "items"] data with
    | nil => exact absurd hm h
    | cons a l => simp [Marketflow.handle_place_purchase_order, checkRequired, hm]
  · intro vf m p ct data h
    simp [GetVehicleDetails.lookup_vehicle_by_license, h]
  · intro data h
    cases hm : missingFields ["farm_id", "product_id", "quantity_kg", "requested_date"] data with
    | nil => exact absurd hm h
    | cons a l => simp [Logifresh.handle_schedule_farm_pickup_logistics, checkRequired, hm]
  · intro lo ds vi ra now rng p ct data h
    simp [GetOpt.handle_optimize_delivery_route, h, pytruthy]

/-- Witness for C1 (amended): POST /harvest with farm_id, product_id and
harvest_date but no harvested_quantity_kg answers 400 naming exactly that
field, and the logistics pickup handler with an empty body answers 200
naming all four of its fields. -/
theorem claim_C1_witness :
    missingFields ["farm_id", "product_id", "harvested_quantity_kg", "harvest_date"]
        [("farm_id", JVal.str "F"), ("product_id", JVal.str "P"),
          ("harvest_date", JVal.str "2025-01-01")] ≠ [] ∧
      (Agrioptimize.handle_log_harvest (fun _ => some 0) "u" none
          [("farm_id", JVal.str "F"), ("product_id", JVal.str "P"),
            ("harvest_date", JVal.str "2025-01-01")]).1
        = ⟨400, errBody (missingMsg (missingFields
            ["farm_id", "product_id", "harvested_quantity_kg", "harvest_date"]
            [("farm_id", JVal.str "F"), ("product_id", JVal.str "P"),
              ("harvest_date", JVal.str "2025-01-01")]))⟩ ∧
      Logifresh.handle_schedule_farm_pickup_logistics []
        = ⟨200, .obj [("status", .str "error"),
            ("message", .str ("Logistics Pickup Request Error: Missing required fields: "
              ++ String.intercalate ", " (missingFields
                ["farm_id", "product_id", "quantity_kg", "requested_date"] [])))]⟩ :=
  ⟨by decide,
   claim_C1_amended.1 (fun _ => some 0) "u" none _ (by decide),
   claim_C1_amended.2.2.2.2.2.2.2.2.2.2.2.2.1 [] (by decide)⟩

end FreshFlow

namespace FreshFlow

/-- Counterexample for C2: the claim says EVERY warehouse failure during
a request yields HTTP 500; but in POST /shipment/status, when the
shipment row is found (requiring cold chain) and the cold-chain-readings
query fails, the handler answers 200 with status "warning", not 500. -/
theorem claim_C2_counterexample :
    (Logifresh.handle_track_shipment_location
        (.ok [JVal.obj [("shipment_id", JVal.str "S1"), ("requires_cold_chain", JVal.bool true)]])
        (.error "boom") [("shipment_id", JVal.str "S1")]).code = 200 ∧
      (Logifresh.handle_track_shipment_location
          (.ok [JVal.obj [("shipment_id", JVal.str "S1"), ("requires_cold_chain", JVal.bool true)]])
          (.error "boom") [("shipment_id", JVal.str "S1")]).code ≠ 500 ∧
      (Logifresh.handle_track_shipment_location
          (.ok [JVal.obj [("shipment_id", JVal.str "S1"), ("requires_cold_chain", JVal.bool true)]])
          (.error "boom") [("shipment_id", JVal.str "S1")]).statusOf
        = some (JVal.str "warning") :=
  ⟨rfl, by decide, rfl⟩

/-- Claim C2 as amended: a warehouse failure in a request's primary query
or insert yields 500 with a generic message and the raw error string in
`details` (harvest-log insert, pickup availability query, cold-chain
insert, shipment lookup); but a handler that performs several retrievals
answers 200 with status "warning" and best-effort partial data when only
a secondary retrieval fails (cold-chain readings of an otherwise found
shipment). -/
theorem claim_C2_amended :
    (∀ (day : Int) (u e : String) (fv pv : JVal) (q : Int) (hd : String),
      (Agrioptimize.handle_log_harvest (fun _ => some day) u (some e)
          [("farm_id", fv), ("product_id", pv), ("harvested_quantity_kg", JVal.int q),
            ("harvest_date", JVal.str hd)]).1
        = ⟨500, .obj [("status", .str "error"),
            ("message", .str "Failed to log harvest record."),
            ("details", .str e)]⟩) ∧
    (∀ (day : Int) (db : List Agrioptimize.HarvestRow) (rng : Nat → Nat) (rb : Bool)
      (e : String) (fv pv : JVal) (q : Int) (rd : String),
      Agrioptimize.handle_schedule_farm_pickup (fun _ => some day) db false e rng rb
          [("farm_id", fv), ("product_id", pv), ("quantity_kg", JVal.int q),
            ("requested_date", JVal.str rd)]
        = ⟨500, .obj [("status", .str "error"),
            ("message", .str "Failed to check farm availability."),
            ("details", .str e)]⟩) ∧
    (∀ (tsIso u e : String) (sid : JVal) (t : ℚ) (ts : String),
      (Logifresh.handle_report_cold_chain_issue (fun _ => some tsIso) u (some e)
          [("shipment_id", sid), ("temperature_celsius", JVal.rat t),
            ("timestamp", JVal.str ts)]).1
        = ⟨500, .obj [("status", .str "error"),
            ("message", .str "Failed to report cold chain reading."),
            ("details", .str e)]⟩) ∧
    (∀ (e : String) (cf : Fetch) (sid : String) (rest : Data),
      Logifresh.handle_track_shipment_location (.error e) cf
          (("shipment_id", JVal.str sid) :: rest)
        = ⟨500, .obj [("status", .str "error"),
            ("message", .str "Failed to retrieve shipment details."),
            ("details", .str e)]⟩) ∧
    (∀ (e : String) (info : JVal) (sid : String) (rest : Data),
      pytruthy ((getField info "requires_cold_chain").getD (.bool false)) = true →
      Logifresh.handle_track_shipment_location (.ok [info]) (.error e)
          (("shipment_id", JVal.str sid) :: rest)
        = ⟨200, .obj [("status", .str "warning"),
            ("message", .str "Data retrieval issues encountered."),
            ("details", .str "Cold chain query failed: []"),
            ("shipment_details", info),
            ("recent_cold_chain_readings", .arr [])]⟩) := by
  refine ⟨?_, ?_, ?_, ?_, ?_⟩
  · intro day u e fv pv q hd
    rfl
  · intro day db rng rb e fv pv q rd
    rfl
  · intro tsIso u e sid t ts
    rfl
  · intro e cf sid rest
    rfl
  · intro e info sid rest h
    simp [Logifresh.handle_track_shipment_location, checkRequired, missingFields, h, fetchOk]

/-- Witness for C2 (amended): concrete failing inserts/queries produce
the 500-with-details responses, and a concrete secondary cold-chain
failure produces the 200 "warning" response. -/
theorem claim_C2_witness :
    (Agrioptimize.handle_log_harvest (fun _ => some 0) "u" (some "boom")
        [("farm_id", JVal.str "F"), ("product_id", JVal.str "P"),
          ("harvested_quantity_kg", JVal.int 5), ("harvest_date", JVal.str "2025-01-01")]).1
      = ⟨500, .obj [("status", .str "error"),
          ("message", .str "Failed to log harvest record."),
          ("details", .str "boom")]⟩ ∧
    pytruthy ((getField (JVal.obj [("requires_cold_chain", JVal.bool true)])
        "requires_cold_chain").getD (.bool false)) = true ∧
    Logifresh.handle_track_shipment_location
        (.ok [JVal.obj [("requires_cold_chain", JVal.bool true)]]) (.error "boom")
        [("shipment_id", JVal.str "S1")]
      = ⟨200, .obj [("status", .str "warning"),
          ("message", .str "Data retrieval issues encountered."),
          ("details", .str "Cold chain query failed: []"),
          ("shipment_details", JVal.obj [("requires_cold_chain", JVal.bool true)]),
          ("recent_cold_chain_readings", .arr [])]⟩ :=
  ⟨claim_C2_amended.1 0 "u" "boom" (JVal.str "F") (JVal.str "P") 5 "2025-01-01",
   rfl,
   claim_C2_amended.2.2.2.2 "boom" (JVal.obj [("requires_cold_chain", JVal.bool true)])
     "S1" [] rfl⟩

end FreshFlow

namespace FreshFlow

/-- Counterexample for C4: the claim says each of the nine deployed
handler functions serves GET / as a health check; but the standalone
route-optimization function rejects every non-POST request with 405
("Method not allowed") — a GET to / is rejected, not served as a health
check. -/
theorem claim_C4_counterexample :
    GetOpt.handle_optimize_delivery_route (.ok none) [] none (.error "") 0 (fun _ => 0)
        ⟨"GET", "/", none, none⟩
      = ⟨405, .obj [("error", .str "Method not allowed")]⟩ ∧
    (GetOpt.handle_optimize_delivery_route (.ok none) [] none (.error "") 0 (fun _ => 0)
        ⟨"GET", "/", none, none⟩).code ≠ 200 :=
  ⟨rfl, by decide⟩

/-- Claim C4 as amended: only the three backend entry points
(agrioptimize, logifresh, marketflow) serve GET / as a health check; the
standalone route-optimization function answers every non-POST request 405;
the lookup functions (product, customer, farm, vehicle) never inspect the
method and treat any request — including GET / — as a data request; the
cold-chain alerter is a Pub/Sub-triggered function, not an HTTP handler. -/
theorem claim_C4_amended :
    (∀ (ctx : Agrioptimize.AgriCtx) (ct : Option String) (body : Option Data),
      ctx.clientPresent = true → ctx.healthOk = true →
      Agrioptimize.agrioptimize_backend_function ctx ⟨"GET", "/", ct, body⟩
        = ⟨200, .str "AgriOptimize AI Backend is running and connected to BigQuery!"⟩) ∧
    (∀ (ctx : Logifresh.LogiCtx) (ct : Option String) (body : Option Data),
      ctx.healthOk = true →
      Logifresh.logifresh_backend_function ctx ⟨"GET", "/", ct, body⟩
        = ⟨200, .str "LogiFresh AI Backend is running and connected to BigQuery!"⟩) ∧
    (∀ (ctx : Marketflow.MarketCtx) (ct : Option String) (body : Option Data),
      ctx.healthOk = true →
      Marketflow.marketflow_backend_function ctx ⟨"GET", "/", ct, body⟩
        = ⟨200, .str "MarketFlow AI Backend is running and connected to BigQuery!"⟩) ∧
    (∀ (lo : Except String (Option GetOpt.Coords)) (ds : List GetOpt.DestDetail)
      (vi : Option JVal) (ra : Except String GetOpt.RoutesResult) (now : Int)
      (rng : Nat → Nat) (m p : String) (ct : Option String) (body : Option Data),
      m ≠ "POST" →
      GetOpt.handle_optimize_delivery_route lo ds vi ra now rng ⟨m, p, ct, body⟩
        = ⟨405, .obj [("error", .str "Method not allowed")]⟩) ∧
    (∀ (l : List JVal) (fm : Fetch) (p : String) (ct : Option String),
      GetProduct.lookup_product_by_name (.ok l) fm ⟨"GET", p, ct, none⟩
        = ⟨200, .obj [("matches", .arr l)]⟩) ∧
    (∀ (l : List JVal) (fm : Fetch) (p : String) (ct : Option String),
      GetCustomerDetails.lookup_customer_by_name (.ok l) fm ⟨"GET", p, ct, none⟩
        = ⟨200, .obj [("matches", .arr l)]⟩) ∧
    (∀ (l : List JVal) (fm : Fetch) (p : String) (ct : Option String),
      GetFirmDetails.lookup_farm_by_name (.ok l) fm ⟨"GET", p, ct, none⟩
        = ⟨200, .obj [("matches", .arr l)]⟩) ∧
    (∀ (vf : Except String (List GetVehicleDetails.VRow)) (p : String) (ct : Option String),
      GetVehicleDetails.lookup_vehicle_by_license vf ⟨"GET", p, ct, none⟩
        = ⟨400, .obj [("error", .str "Missing or empty vehicle_license_no in request body")]⟩) := by
  refine ⟨?_, ?_, ?_, ?_, ?_, ?_, ?_, ?_⟩
  · intro ctx ct body h1 h2
    unfold Agrioptimize.agrioptimize_backend_function
    rw [h1, h2]
    rfl
  · intro ctx ct body h1
    unfold Logifresh.logifresh_backend_function
    rw [h1]
    rfl
  · intro ctx ct body h1
    unfold Marketflow.marketflow_backend_function
    rw [h1]
    rfl
  · intro lo ds vi ra now rng m p ct body h
    have hb : (m == "POST") = false := beq_eq_false_iff_ne.mpr h
    unfold GetOpt.handle_optimize_delivery_route
    rw [hb]
    rfl
  · intro l fm p ct
    rfl
  · intro l fm p ct
    rfl
  · intro l fm p ct
    rfl
  · intro vf p ct
    rfl

/-- Witness for C4 (amended): with a healthy warehouse client, the
agrioptimize entry point serves a concrete GET / as a health check; the
standalone route function answers a concrete GET with 405; the product
lookup serves a concrete GET / as a data request. -/
theorem claim_C4_witness :
    Agrioptimize.agrioptimize_backend_function
        ⟨true, true, "", fun _ => some 0, "u", "d", none, none, .ok [], .ok [],
          .ok [], .ok [], [], true, "", fun _ => 0, true⟩
        ⟨"GET", "/", none, none⟩
      = ⟨200, .str "AgriOptimize AI Backend is running and connected to BigQuery!"⟩ ∧
    ("GET" : String) ≠ "POST" ∧
    GetOpt.handle_optimize_delivery_route (.ok none) [] none (.error "") 0 (fun _ => 0)
        ⟨"GET", "/", none, none⟩
      = ⟨405, .obj [("error", .str "Method not allowed")]⟩ ∧
    GetProduct.lookup_product_by_name (.ok []) (.ok []) ⟨"GET", "/", none, none⟩
      = ⟨200, .obj [("matches", .arr [])]⟩ :=
  ⟨claim_C4_amended.1 _ none none rfl rfl,
   by decide,
   claim_C4_amended.2.2.2.1 (.ok none) [] none (.error "") 0 (fun _ => 0)
     "GET" "/" none none (by decide),
   claim_C4_amended.2.2.2.2.1 [] (.ok []) "/" none⟩

end FreshFlow

namespace FreshFlow

/-- Counterexample for C5: the claim's availability window is "the 7 days
up to requested_date", but the SQL WHERE clause has no upper date bound.
A single harvest row dated 100 days AFTER the requested date (quantity
100 kg) makes a 50 kg pickup request succeed, although the spec-side
window sum (`specAvailabilityWindowSum`) is 0 < 50 — the claim's
"if and only if" fails at this input. -/
theorem claim_C5_counterexample :
    (Agrioptimize.handle_schedule_farm_pickup (fun _ => some 0)
        [⟨"F", "P", 100, 100⟩] true "" (fun _ => 0) false
        [("farm_id", JVal.str "F"), ("product_id", JVal.str "P"),
          ("quantity_kg", JVal.int 50), ("requested_date", JVal.str "2025-01-01")]).code
      = 200 ∧
    (Agrioptimize.handle_schedule_farm_pickup (fun _ => some 0)
        [⟨"F", "P", 100, 100⟩] true "" (fun _ => 0) false
        [("farm_id", JVal.str "F"), ("product_id", JVal.str "P"),
          ("quantity_kg", JVal.int 50), ("requested_date", JVal.str "2025-01-01")]).statusOf
      = some (JVal.str "success") ∧
    specAvailabilityWindowSum [⟨"F", "P", 100, 100⟩] "F" "P" 0 = 0 ∧
    ¬ ((50 : Int) ≤ specAvailabilityWindowSum [⟨"F", "P", 100, 100⟩] "F" "P" 0) := by
  refine ⟨rfl, rfl, rfl, by decide⟩

/-- Claim C5 as amended: for every valid POST /schedule/pickup request
(all four fields present, parseable date, integer quantity), the handler
answers 200; the status is "success" with `confirmed_quantity_kg` equal
to the requested quantity if and only if the warehouse sum of
`harvested_quantity_kg` for that farm and product over harvest dates ON
OR AFTER requested_date minus 7 days — with no upper bound, so
future-dated harvests count; a missing sum counts as 0 — is at least the
requested quantity; otherwise the status is "unavailable".  In the
success case `estimated_pickup_datetime` lies between requested_date
08:00 and requested_date plus 2 days at 16:59. -/
theorem claim_C5_amended (day : Int) (db : List Agrioptimize.HarvestRow)
    (rng : Nat → Nat) (rb : Bool) (e farm prod rd : String) (qty : Int) :
    (Agrioptimize.handle_schedule_farm_pickup (fun _ => some day) db true e rng rb
        [("farm_id", JVal.str farm), ("product_id", JVal.str prod),
          ("quantity_kg", JVal.int qty), ("requested_date", JVal.str rd)]).code = 200 ∧
    (qty ≤ (Agrioptimize.sqlAvailSum db farm prod day).getD 0 →
      (Agrioptimize.handle_schedule_farm_pickup (fun _ => some day) db true e rng rb
          [("farm_id", JVal.str farm), ("product_id", JVal.str prod),
            ("quantity_kg", JVal.int qty), ("requested_date", JVal.str rd)]).statusOf
        = some (JVal.str "success") ∧
      getField (((Agrioptimize.handle_schedule_farm_pickup (fun _ => some day) db true e rng rb
          [("farm_id", JVal.str farm), ("product_id", JVal.str prod),
            ("quantity_kg", JVal.int qty), ("requested_date", JVal.str rd)]).detailsOf).getD .null)
          "confirmed_quantity_kg" = some (JVal.int qty) ∧
      (∃ pk : Int,
        getField (((Agrioptimize.handle_schedule_farm_pickup (fun _ => some day) db true e rng rb
            [("farm_id", JVal.str farm), ("product_id", JVal.str prod),
              ("quantity_kg", JVal.int qty), ("requested_date", JVal.str rd)]).detailsOf).getD .null)
            "estimated_pickup_datetime" = some (JVal.int pk) ∧
        day * 1440 + 8 * 60 ≤ pk ∧ pk ≤ day * 1440 + 2 * 1440 + 16 * 60 + 59)) ∧
    ((Agrioptimize.sqlAvailSum db farm prod day).getD 0 < qty →
      (Agrioptimize.handle_schedule_farm_pickup (fun _ => some day) db true e rng rb
          [("farm_id", JVal.str farm), ("product_id", JVal.str prod),
            ("quantity_kg", JVal.int qty), ("requested_date", JVal.str rd)]).statusOf
        = some (JVal.str "unavailable")) := by
  have hkey : Agrioptimize.handle_schedule_farm_pickup (fun _ => some day) db true e rng rb
      [("farm_id", JVal.str farm), ("product_id", JVal.str prod),
        ("quantity_kg", JVal.int qty), ("requested_date", JVal.str rd)]
      = if qty ≤ (Agrioptimize.sqlAvailSum db farm prod day).getD 0 then
          ⟨200, .obj [("status", .str "success"),
            ("details", .obj
              [("request_status", .str "Acknowledged"),
               ("estimated_pickup_datetime", .int (day * 1440
                 + (randint 0 2 (rng 0) : Int) * 1440
                 + (randint 8 16 (rng 1) : Int) * 60
                 + (randint 0 59 (rng 2) : Int))),
               ("confirmed_quantity_kg", .int qty),
               ("message", .str "Pickup request received and appears feasible. Logistics is being notified and will confirm exact details."),
               ("requires_cold_chain", .bool rb)])]⟩
        else
          ⟨200, .obj [("status", .str "unavailable"),
            ("message", .str ("Unable to schedule pickup for " ++ toString qty
              ++ " kg. Only found approximately "
              ++ toString ((Agrioptimize.sqlAvailSum db farm prod day).getD 0)
              ++ " kg recently harvested or on hand for this product at this farm. Please adjust quantity or date."))]⟩ := rfl
  have b1 : randint 0 2 (rng 0) ≤ 2 := by unfold randint; omega
  have b2l : 8 ≤ randint 8 16 (rng 1) := by unfold randint; omega
  have b2u : randint 8 16 (rng 1) ≤ 16 := by unfold randint; omega
  have b3 : randint 0 59 (rng 2) ≤ 59 := by unfold randint; omega
  by_cases hq : qty ≤ (Agrioptimize.sqlAvailSum db farm prod day).getD 0
  · rw [hkey, if_pos hq]
    refine ⟨rfl, fun _ => ⟨rfl, rfl, ⟨_, rfl, ?_, ?_⟩⟩, fun hlt => absurd hq (not_le.mpr hlt)⟩
    · omega
    · omega
  · rw [hkey, if_neg hq]
    exact ⟨rfl, fun hle => absurd hle hq, fun _ => rfl⟩

/-- Witness for C5 (amended): a concrete request for 50 kg against a
single 100 kg harvest three days before the requested date succeeds, with
the simulated pickup time inside the claimed window. -/
theorem claim_C5_witness :
    (50 : Int) ≤ (Agrioptimize.sqlAvailSum [⟨"F", "P", 17, 100⟩] "F" "P" 20).getD 0 ∧
    (Agrioptimize.handle_schedule_farm_pickup (fun _ => some 20) [⟨"F", "P", 17, 100⟩]
        true "" (fun _ => 0) false
        [("farm_id", JVal.str "F"), ("product_id", JVal.str "P"),
          ("quantity_kg", JVal.int 50), ("requested_date", JVal.str "2025-01-21")]).code = 200 ∧
    (Agrioptimize.handle_schedule_farm_pickup (fun _ => some 20) [⟨"F", "P", 17, 100⟩]
        true "" (fun _ => 0) false
        [("farm_id", JVal.str "F"), ("product_id", JVal.str "P"),
          ("quantity_kg", JVal.int 50), ("requested_date", JVal.str "2025-01-21")]).statusOf
      = some (JVal.str "success") := by
  have h := claim_C5_amended 20 [⟨"F", "P", 17, 100⟩] (fun _ => 0) false "" "F" "P"
    "2025-01-21" 50
  exact ⟨by decide, h.1, (h.2.1 (by decide)).1⟩

end FreshFlow

namespace FreshFlow

/-- Counterexample for C8: the claim says every writing request inserts
exactly one row into exactly one table; but a POST /order with two items
performs two inserts into two different tables in one request — one order
row into `orders` and two item rows into `order_items`. -/
theorem claim_C8_counterexample :
    ((Marketflow.handle_place_purchase_order (fun _ => "u") "2025-01-01" (fun _ => 2)
        (.ok []) none none
        [("customer_id", JVal.str "C"),
         ("items", JVal.arr
           [JVal.obj [("product_id", JVal.str "P1"), ("quantity_kg", JVal.int 5)],
            JVal.obj [("product_id", JVal.str "P2"), ("quantity_kg", JVal.int 7)]])]).2).map
        DbWrite.tableOf
      = [Marketflow.ORDERS_TABLE, Marketflow.ORDER_ITEMS_TABLE] ∧
    ((Marketflow.handle_place_purchase_order (fun _ => "u") "2025-01-01" (fun _ => 2)
        (.ok []) none none
        [("customer_id", JVal.str "C"),
         ("items", JVal.arr
           [JVal.obj [("product_id", JVal.str "P1"), ("quantity_kg", JVal.int 5)],
            JVal.obj [("product_id", JVal.str "P2"), ("quantity_kg", JVal.int 7)]])]).2).map
        DbWrite.numRows = [1, 2] ∧
    Marketflow.ORDERS_TABLE ≠ Marketflow.ORDER_ITEMS_TABLE :=
  ⟨rfl, rfl, by decide⟩

set_option maxHeartbeats 2000000 in
set_option linter.unreachableTactic false in
set_option linter.unusedTactic false in
/-- Claim C8 as amended: the application performs no warehouse updates or
deletes — every write any handler issues is an insert; the harvest-log,
farm-QC and cold-chain handlers insert at most one row into one table per
request; the purchase-order handler alone writes two tables in one
request: one order row into `orders` and one row per item into
`order_items`. -/
theorem claim_C8_amended :
    (∀ (pd : String → Option Int) (u : String) (ir : Option String) (data : Data),
      ((Agrioptimize.handle_log_harvest pd u ir data).2).all DbWrite.isInsert = true) ∧
    (∀ (pd : String → Option Int) (u ti : String) (ir : Option String) (data : Data),
      ((Agrioptimize.handle_report_farm_qc_issue pd u ti ir data).2).all DbWrite.isInsert = true) ∧
    (∀ (pts : String → Option String) (u : String) (ir : Option String) (data : Data),
      ((Logifresh.handle_report_cold_chain_issue pts u ir data).2).all DbWrite.isInsert = true) ∧
    (∀ (us : Nat → String) (ti : String) (un : Nat → ℚ) (cf : Fetch)
      (io ii : Option String) (data : Data),
      ((Marketflow.handle_place_purchase_order us ti un cf io ii data).2).all
        DbWrite.isInsert = true) ∧
    (∀ (pd : String → Option Int) (u : String) (ir : Option String) (data : Data),
      (Agrioptimize.handle_log_harvest pd u ir data).2 = [] ∨
      ∃ t r, (Agrioptimize.handle_log_harvest pd u ir data).2 = [DbWrite.insert t [r]]) ∧
    (∀ (pd : String → Option Int) (u ti : String) (ir : Option String) (data : Data),
      (Agrioptimize.handle_report_farm_qc_issue pd u ti ir data).2 = [] ∨
      ∃ t r, (Agrioptimize.handle_report_farm_qc_issue pd u ti ir data).2
        = [DbWrite.insert t [r]]) ∧
    (∀ (pts : String → Option String) (u : String) (ir : Option String) (data : Data),
      (Logifresh.handle_report_cold_chain_issue pts u ir data).2 = [] ∨
      ∃ t r, (Logifresh.handle_report_cold_chain_issue pts u ir data).2
        = [DbWrite.insert t [r]]) ∧
    (∀ (us : Nat → String) (ti : String) (un : Nat → ℚ) (cf : Fetch)
      (io ii : Option String) (cv it : JVal) (its : List JVal)
      (out : List Marketflow.OrderItem),
      Marketflow.validateItems un 0 (it :: its) = .ok out →
      ((Marketflow.handle_place_purchase_order us ti un cf io ii
          [("customer_id", cv), ("items", JVal.arr (it :: its))]).2).map DbWrite.tableOf
        = [Marketflow.ORDERS_TABLE, Marketflow.ORDER_ITEMS_TABLE] ∧
      ((Marketflow.handle_place_purchase_order us ti un cf io ii
          [("customer_id", cv), ("items", JVal.arr (it :: its))]).2).map DbWrite.numRows
        = [1, (it :: its).length]) := by
  refine ⟨?_, ?_, ?_, ?_, ?_, ?_, ?_, ?_⟩
  · intro pd u ir data
    unfold Agrioptimize.handle_log_harvest
    repeat' split
    all_goals try rfl
    all_goals (dsimp only; repeat' split)
    all_goals rfl
  · intro pd u ti ir data
    unfold Agrioptimize.handle_report_farm_qc_issue
    repeat' split
    all_goals try rfl
    all_goals (dsimp only; repeat' split)
    all_goals rfl
  · intro pts u ir data
    unfold Logifresh.handle_report_cold_chain_issue
    repeat' split
    all_goals try rfl
    all_goals (dsimp only; repeat' split)
    all_goals rfl
  · intro us ti un cf io ii data
    unfold Marketflow.handle_place_purchase_order
    repeat' split
    all_goals try rfl
    all_goals (dsimp only; repeat' split)
    all_goals rfl
  · intro pd u ir data
    unfold Agrioptimize.handle_log_harvest
    repeat' split
    all_goals try (first | exact Or.inl rfl | exact Or.inr ⟨_, _, rfl⟩)
    all_goals (dsimp only; repeat' split)
    all_goals first
      | exact Or.inl rfl
      | exact Or.inr ⟨_, _, rfl⟩
  · intro pd u ti ir data
    unfold Agrioptimize.handle_report_farm_qc_issue
    repeat' split
    all_goals try (first | exact Or.inl rfl | exact Or.inr ⟨_, _, rfl⟩)
    all_goals (dsimp only; repeat' split)
    all_goals first
      | exact Or.inl rfl
      | exact Or.inr ⟨_, _, rfl⟩
  · intro pts u ir data
    unfold Logifresh.handle_report_cold_chain_issue
    repeat' split
    all_goals try (first | exact Or.inl rfl | exact Or.inr ⟨_, _, rfl⟩)
    all_goals (dsimp only; repeat' split)
    all_goals first
      | exact Or.inl rfl
      | exact Or.inr ⟨_, _, rfl⟩
  · intro us ti un cf io ii cv it its out hval
    have hlen := validateItems_ok_length un 0 (it :: its) out hval
    cases io <;> cases ii <;>
      simp [Marketflow.handle_place_purchase_order, checkRequired, missingFields,
        List.lookup, hval, DbWrite.tableOf, DbWrite.numRows, hlen]

/-- Witness for C8 (amended): the concrete two-item order validates
successfully and writes one order row plus two item rows. -/
theorem claim_C8_witness :
    Marketflow.validateItems (fun _ => 2) 0
        [JVal.obj [("product_id", JVal.str "P1"), ("quantity_kg", JVal.int 5)],
         JVal.obj [("product_id", JVal.str "P2"), ("quantity_kg", JVal.int 7)]]
      = .ok [⟨JVal.str "P1", 5, Marketflow.round2 2,
               Marketflow.round2 (((5 : Int) : ℚ) * Marketflow.round2 2)⟩,
             ⟨JVal.str "P2", 7, Marketflow.round2 2,
               Marketflow.round2 (((7 : Int) : ℚ) * Marketflow.round2 2)⟩] ∧
    ((Marketflow.handle_place_purchase_order (fun _ => "u") "2025-01-01" (fun _ => 2)
        (.ok []) none none
        [("customer_id", JVal.str "C"),
         ("items", JVal.arr
           [JVal.obj [("product_id", JVal.str "P1"), ("quantity_kg", JVal.int 5)],
            JVal.obj [("product_id", JVal.str "P2"), ("quantity_kg", JVal.int 7)]])]).2).map
        DbWrite.numRows
      = [1, ([JVal.obj [("product_id", JVal.str "P1"), ("quantity_kg", JVal.int 5)],
              JVal.obj [("product_id", JVal.str "P2"), ("quantity_kg", JVal.int 7)]] : List JVal).length] := by
  have hv : Marketflow.validateItems (fun _ => 2) 0
      [JVal.obj [("product_id", JVal.str "P1"), ("quantity_kg", JVal.int 5)],
       JVal.obj [("product_id", JVal.str "P2"), ("quantity_kg", JVal.int 7)]]
      = .ok [⟨JVal.str "P1", 5, Marketflow.round2 2,
               Marketflow.round2 (((5 : Int) : ℚ) * Marketflow.round2 2)⟩,
             ⟨JVal.str "P2", 7, Marketflow.round2 2,
               Marketflow.round2 (((7 : Int) : ℚ) * Marketflow.round2 2)⟩] := by
    rfl
  refine ⟨hv, ?_⟩
  exact (claim_C8_amended.2.2.2.2.2.2.2 (fun _ => "u") "2025-01-01" (fun _ => 2)
    (.ok []) none none (JVal.str "C") _ _ _ hv).2

end FreshFlow

namespace FreshFlow

/-- Counterexample for C3: the claim says POST /route/optimize produces
its route by calling a third-party routing API and re-packaging that
response; but the logifresh handler behind POST /route/optimize consumes
only warehouse rows and the random stream — at this concrete input its
entire response, including every stop, is computed from the fetched
customer row and `randint`, and it labels itself "Simulated route
generated.".  (The handler's inputs contain no routing-service response
at all; compare its signature with the standalone function treated in the
amended claim.) -/
theorem claim_C3_counterexample :
    Logifresh.handle_optimize_delivery_route
        (.ok [JVal.obj [("vehicle_id", JVal.str "V1")]])
        (.ok [⟨"C1", "Addr 1"⟩]) 0 (fun _ => 0)
        [("destination_locations", JVal.arr [JVal.str "C1"]), ("vehicle_id", JVal.str "V1")]
      = ⟨200, .obj [("status", .str "success"), ("vehicle_id", .str "V1"),
          ("num_stops", .int 1), ("estimated_total_duration_minutes", .int 30),
          ("route_stops", .arr [JVal.obj [("stop_number", .int 1),
            ("destination_id", .str "C1"), ("destination_address", .str "Addr 1"),
            ("estimated_arrival_time", .int 30),
            ("estimated_service_duration_minutes", .int 15)]]),
          ("message", .str "Simulated route generated.")]⟩ := rfl

/-- Claim C3 as amended: it is the standalone route-optimization Cloud
Function (getoptimizedeliveryroute) that calls the Google Routes API and
re-packages its response — on success its total duration and distance are
the API's values verbatim and its stops are derived from the API's legs;
the logifresh POST /route/optimize handler calls no routing service: it
answers "Simulated route generated." with stops that are a permutation of
the customer rows fetched from the warehouse, with arithmetically
generated times.  Neither implements a routing algorithm of its own. -/
theorem claim_C3_amended :
    (∀ (c : GetOpt.Coords) (dd : GetOpt.DestDetail) (ds : List GetOpt.DestDetail)
      (vi : Option JVal) (rt : GetOpt.RouteObj) (more : List GetOpt.RouteObj)
      (now : Int) (rng : Nat → Nat) (p : String) (ct : Option String)
      (o : String) (dl : JVal) (dls : List JVal) (stops : List JVal),
      o ≠ "" →
      GetOpt.legStops (now + 60 * (randint 5 15 (rng 0) : Int)) 0 0 rt.legs (dd :: ds)
        = some stops →
      GetOpt.handle_optimize_delivery_route (.ok (some c)) (dd :: ds) vi
          (.ok ⟨rt :: more⟩) now rng
          ⟨"POST", p, ct, some [("origin_location_id", JVal.str o),
            ("destination_order_ids", JVal.arr (dl :: dls))]⟩
        = ⟨200, .obj [("status", .str "success"), ("vehicle_id", .null),
            ("num_stops_on_route", .int ((rt.legs.length : Int) + 1)),
            ("estimated_total_duration", .str rt.duration),
            ("estimated_total_distance_meters", .int rt.distanceMeters),
            ("route_stops", .arr (GetOpt.originStop (JVal.str o)
              (now + 60 * (randint 5 15 (rng 0) : Int)) :: stops)),
            ("route_date", .null)]⟩) ∧
    (∀ (v : JVal) (vrest : List JVal) (c : Logifresh.CustRow)
      (cs : List Logifresh.CustRow) (now : Int) (rng : Nat → Nat)
      (dl : JVal) (dls : List JVal) (vv : JVal),
      (Logifresh.handle_optimize_delivery_route (.ok (v :: vrest)) (.ok (c :: cs)) now rng
          [("destination_locations", JVal.arr (dl :: dls)), ("vehicle_id", vv)]).msgOf
        = some (.str "Simulated route generated.") ∧
      ∃ stops : List JVal,
        getField (Logifresh.handle_optimize_delivery_route (.ok (v :: vrest))
            (.ok (c :: cs)) now rng
            [("destination_locations", JVal.arr (dl :: dls)), ("vehicle_id", vv)]).body
            "route_stops" = some (.arr stops) ∧
        (stops.map (fun s => getField s "destination_id")).Perm
          ((c :: cs).map (fun cust => some (JVal.str cust.customer_id)))) := by
  constructor
  · intro c dd ds vi rt more now rng p ct o dl dls stops ho hstops
    have hb : (o == "") = false := beq_eq_false_iff_ne.mpr ho
    simp [GetOpt.handle_optimize_delivery_route, List.lookup, pytruthy, hb, hstops]
  · intro v vrest c cs now rng dl dls vv
    refine ⟨rfl,
      ⟨Logifresh.mkStops (randint 30 90 (rng 0) : Int)
        (fun i => (randint 15 45 (rng (100 + i)) : Int)) 0 now
        (Logifresh.shuffle rng 1 (c :: cs)), rfl, ?_⟩⟩
    rw [mkStops_map_destination]
    exact List.Perm.map _ (shuffle_perm rng 1 (c :: cs))

/-- Witness for C3 (amended): a concrete Routes-API response (duration
"123s", 4567 m, no legs) is re-packaged verbatim by the standalone
function, and a concrete logifresh route request produces the simulated
route over the single fetched customer. -/
theorem claim_C3_witness :
    ("W1" : String) ≠ "" ∧
    GetOpt.legStops ((0 : Int) + 60 * (randint 5 15 ((fun _ => 0) 0) : Int)) 0 0
        (GetOpt.RouteObj.legs ⟨"123s", 4567, []⟩) [⟨"O1", "Addr 1", 0, 0, 100⟩] = some [] ∧
    GetOpt.handle_optimize_delivery_route (.ok (some ⟨0, 0⟩)) [⟨"O1", "Addr 1", 0, 0, 100⟩]
        none (.ok ⟨[⟨"123s", 4567, []⟩]⟩) 0 (fun _ => 0)
        ⟨"POST", "/", none, some [("origin_location_id", JVal.str "W1"),
          ("destination_order_ids", JVal.arr [JVal.str "O1"])]⟩
      = ⟨200, .obj [("status", .str "success"), ("vehicle_id", .null),
          ("num_stops_on_route", .int 1),
          ("estimated_total_duration", .str "123s"),
          ("estimated_total_distance_meters", .int 4567),
          ("route_stops", .arr [GetOpt.originStop (JVal.str "W1")
            ((0 : Int) + 60 * (randint 5 15 ((fun _ => 0) 0) : Int))]),
          ("route_date", .null)]⟩ ∧
    (Logifresh.handle_optimize_delivery_route (.ok [JVal.obj []]) (.ok [⟨"C1", "Addr 1"⟩])
        0 (fun _ => 0)
        [("destination_locations", JVal.arr [JVal.str "C1"]),
          ("vehicle_id", JVal.str "V1")]).msgOf
      = some (.str "Simulated route generated.") := by
  have h := claim_C3_amended
  refine ⟨by decide, rfl, ?_, ?_⟩
  · have := h.1 ⟨0, 0⟩ ⟨"O1", "Addr 1", 0, 0, 100⟩ [] none ⟨"123s", 4567, []⟩ []
      0 (fun _ => 0) "/" none "W1" (JVal.str "O1") [] [] (by decide) rfl
    simpa using this
  · exact (h.2 (JVal.obj []) [] ⟨"C1", "Addr 1"⟩ [] 0 (fun _ => 0)
      (JVal.str "C1") [] (JVal.str "V1")).1

end FreshFlow
